import Mathlib

/-!
# Lynkly backend: a shallow embedding of the URL shortener

The development follows the Go sources of the repository:

* `internal/models/lhttp` : the response model, its builder grammar and the
  serialisation done by `Write` (files `lhttp.go`, `response_messages.go`,
  `etag.go`);
* `internal/servers/url_shortener.go` : the short-link store and the two
  handlers `ShortenHandler` and `RedirectHandler`;
* `internal/routers/router.go` : the dispatch wrapper (`Wrap`, `logResponse`,
  `handle`).

Modelling conventions.

* Go `string` is `String`, Go `int` is `Int`, a byte is a `Nat` below 256.
* A Go `interface` value is `Option GoValue`: `none` is the nil interface.
* A Go `error` is `Option GoError`: `none` is the nil error.
* A Go `panic` is the `Except.error` side of `Except PanicVal`; code that has
  side effects returns its final state next to the result, so that the state
  reached at the moment of a panic stays observable.
* A Go `map[string]string` is an association list with `List.lookup` as the
  read and `mapSet` as the write.
* Functions of the Go standard library and of third-party packages
  (`url.Parse`, the JSON encoders, SHA-1, `fresh.IsFresh`, `http.Redirect`,
  header-key canonicalisation) are fields of the structure `Env`; every theorem
  quantifies over them.
* `rand.Uint64()` is an explicit argument `draw`.
-/

namespace Lynkly

/-! ## Go values, errors and panics -/

/-- Go values that can be stored in an `interface` typed payload. The
constructor `other` stands for any value that is neither a string nor a
`map[string]string`; the number only tells such values apart. -/
inductive GoValue where
  | str (s : String)
  | strMap (entries : List (String × String))
  | other (id : Nat)
  deriving DecidableEq, Repr

/-- A non-nil Go `error`; `msg` is what `Error()` returns. -/
structure GoError where
  msg : String
  deriving DecidableEq, Repr

/-- Values a Go panic can carry in this program. -/
inductive PanicVal where
  /-- `panic(err)` with an error value -/
  | err (e : GoError)
  /-- a failed type assertion `x.(string)` -/
  | typeAssertion
  /-- a nil pointer dereference -/
  | nilDeref
  /-- the panic raised by logrus after writing an entry at panic level -/
  | logged (args : List String)
  deriving DecidableEq, Repr

/-! ## `lhttp.go`: the response model -/

/-- The Go type `payloadType` with its four constants. -/
inductive PayloadType where
  | emptyType
  | jsonType
  | textType
  | redirectType
  deriving DecidableEq, Repr

open PayloadType

/-- The Go struct `HttpResponse`. `headers` is a Go map, `none` being the nil map. -/
structure HttpResponse where
  statusCode : Int
  isSuccessful : Bool
  contentType : String
  payload : Option GoValue
  payloadType : PayloadType
  headers : Option (List (String × String))
  etag : Bool
  deriving DecidableEq, Repr

def ContentTypeHeader : String := "Content-Type"
def ContentTypeOptions : String := "X-Content-Type-Options"
def ContentTypeOptionsNoSniff : String := "nosniff"
def ContentAppJSON : String := "application/json;charset=utf-8"
def ContentTextPlain : String := "text/plain;charset=utf-8"
def ContentTextHTML : String := "text/html;charset=utf-8"

def ErrNotSupportedPayloadType : GoError := ⟨"unsupported payload type"⟩
def ErrNilError : GoError := ⟨"error cannot be nil"⟩
def ErrEmptyMessage : GoError := ⟨"message cannot be empty"⟩
def ErrNilJSONPayload : GoError :=
  ⟨"json payload cannot be nil in favour of using NoContent instead"⟩

/-! Status constants of `net/http` used by the builder. -/

def StatusOK : Int := 200
def StatusCreated : Int := 201
def StatusAccepted : Int := 202
def StatusNoContent : Int := 204
def StatusFound : Int := 302
def StatusNotModified : Int := 304
def StatusTemporaryRedirect : Int := 307
def StatusPermanentRedirect : Int := 308
def StatusBadRequest : Int := 400
def StatusUnauthorized : Int := 401
def StatusPaymentRequired : Int := 402
def StatusForbidden : Int := 403
def StatusNotFound : Int := 404
def StatusMethodNotAllowed : Int := 405
def StatusNotAcceptable : Int := 406
def StatusConflict : Int := 409
def StatusGone : Int := 410
def StatusPreconditionFailed : Int := 412
def StatusRequestEntityTooLarge : Int := 413
def StatusLocked : Int := 423
def StatusInternalServerError : Int := 500
def StatusNotImplemented : Int := 501
def StatusServiceUnavailable : Int := 503

def HttpResponse.StatusCode (r : HttpResponse) : Int := r.statusCode

def HttpResponse.IsSuccessful (r : HttpResponse) : Bool := r.isSuccessful

def HttpResponse.Payload (r : HttpResponse) : Option GoValue := r.payload

/-- Go: `r.headers = headers; return r`. -/
def HttpResponse.WithHeaders (r : HttpResponse) (headers : Option (List (String × String))) :
    HttpResponse :=
  { r with headers := headers }

def newResponse (statusCode : Int) : HttpResponse :=
  { statusCode := statusCode
    isSuccessful := true
    contentType := ContentTextPlain
    payload := none
    payloadType := emptyType
    headers := none
    etag := false }

def newErrorResponse (statusCode : Int) : HttpResponse :=
  { statusCode := statusCode
    isSuccessful := false
    contentType := ContentTextPlain
    payload := none
    payloadType := emptyType
    headers := none
    etag := false }

/-! ## `response_messages.go`: the builder grammar -/

structure PartialSuccess where
  response : HttpResponse
  deriving DecidableEq, Repr

/-- Go: `PartialOK struct { PartialSuccess }` (an embedded struct). -/
structure PartialOK where
  toPartialSuccess : PartialSuccess
  deriving DecidableEq, Repr

structure PartialFail where
  response : HttpResponse
  deriving DecidableEq, Repr

structure PartialRedirect where
  response : HttpResponse
  deriving DecidableEq, Repr

/-- `PartialOK.Info`: only headers and, when given, a content type. -/
def PartialOK.Info (p : PartialOK) (contentType : String)
    (headers : Option (List (String × String))) : HttpResponse :=
  let resp := p.toPartialSuccess.response
  let resp := if contentType ≠ "" then { resp with contentType := contentType } else resp
  { resp with headers := headers }

/-- `PartialSuccess.WithJSON`: panics on the nil interface. -/
def PartialSuccess.WithJSON (p : PartialSuccess) (payload : Option GoValue) :
    Except PanicVal HttpResponse :=
  match payload with
  | none => .error (.err ErrNilJSONPayload)
  | some v =>
    .ok { p.response with payload := some v, payloadType := jsonType, contentType := ContentAppJSON }

def PartialSuccess.WithText (p : PartialSuccess) (text : String) : HttpResponse :=
  { p.response with payload := some (.str text), payloadType := textType,
                    contentType := ContentTextPlain }

def PartialSuccess.Etag (p : PartialSuccess) : PartialSuccess :=
  { response := { p.response with etag := true } }

/-- `PartialFail.FromTrustedError`: panics on a nil error and on an empty message. -/
def PartialFail.FromTrustedError (p : PartialFail) (err : Option GoError) :
    Except PanicVal HttpResponse :=
  match err with
  | none => .error (.err ErrNilError)
  | some e =>
    if e.msg = "" then .error (.err ErrEmptyMessage)
    else .ok { p.response with payload := some (.str e.msg) }

/-- `PartialFail.FromTrustedMessage`: panics on the empty message. -/
def PartialFail.FromTrustedMessage (p : PartialFail) (publicMessage : String) :
    Except PanicVal HttpResponse :=
  if publicMessage = "" then .error (.err ErrEmptyMessage)
  else .ok { p.response with payload := some (.str publicMessage) }

/-- `PartialFail.WithJSON`: panics on the nil interface. -/
def PartialFail.WithJSON (p : PartialFail) (payload : Option GoValue) :
    Except PanicVal HttpResponse :=
  match payload with
  | none => .error (.err ErrNilJSONPayload)
  | some v =>
    .ok { p.response with payload := some v, payloadType := jsonType, contentType := ContentAppJSON }

def PartialRedirect.Permanent (p : PartialRedirect) (url : String) : HttpResponse :=
  { p.response with statusCode := StatusPermanentRedirect, payload := some (.str url),
                    contentType := ContentTextHTML }

def PartialRedirect.Temporary (p : PartialRedirect) (url : String) : HttpResponse :=
  { p.response with statusCode := StatusTemporaryRedirect, payload := some (.str url),
                    contentType := ContentTextHTML }

def PartialRedirect.Found (p : PartialRedirect) (url : String) : HttpResponse :=
  { p.response with statusCode := StatusFound, payload := some (.str url),
                    contentType := ContentTextHTML }

def OK : PartialOK := ⟨⟨newResponse StatusOK⟩⟩
def Created : PartialSuccess := ⟨newResponse StatusCreated⟩
def Accepted : PartialSuccess := ⟨newResponse StatusAccepted⟩
def NoContent : HttpResponse := newResponse StatusNoContent
def NotModified : HttpResponse := newResponse StatusNotModified

/-- Go: `&HttpResponse{isSuccessful: true, payloadType: redirectType}`; every
other field has its zero value. -/
def Redirect : PartialRedirect :=
  { response :=
      { statusCode := 0
        isSuccessful := true
        contentType := ""
        payload := none
        payloadType := redirectType
        headers := none
        etag := false } }

def BadRequest : PartialFail := ⟨newErrorResponse StatusBadRequest⟩
def Unauthorized : PartialFail := ⟨newErrorResponse StatusUnauthorized⟩
def PaymentRequired : PartialFail := ⟨newErrorResponse StatusPaymentRequired⟩
def Forbidden : PartialFail := ⟨newErrorResponse StatusForbidden⟩
def NotFound : PartialFail := ⟨newErrorResponse StatusNotFound⟩
def MethodNotAllowed : PartialFail := ⟨newErrorResponse StatusMethodNotAllowed⟩
def Conflict : PartialFail := ⟨newErrorResponse StatusConflict⟩
def NotAcceptable : PartialFail := ⟨newErrorResponse StatusNotAcceptable⟩
def Locked : PartialFail := ⟨newErrorResponse StatusLocked⟩
def RequestEntityTooLarge : PartialFail := ⟨newErrorResponse StatusRequestEntityTooLarge⟩
def StatusGoneResponse : PartialFail := ⟨newErrorResponse StatusGone⟩
def PreconditionFailed : PartialFail := ⟨newErrorResponse StatusPreconditionFailed⟩
def InternalServerError : PartialFail := ⟨newErrorResponse StatusInternalServerError⟩
def NotImplemented : PartialFail := ⟨newErrorResponse StatusNotImplemented⟩
def Unavailable : PartialFail := ⟨newErrorResponse StatusServiceUnavailable⟩

/-- `CustomError`: a status outside `[400, 599]` is replaced by 500. -/
def CustomError (status : Int) : PartialFail :=
  let status := if status < 400 ∨ status > 599 then 500 else status
  ⟨newErrorResponse status⟩

/-! ## The transport: headers, requests and the response writer -/

/-- The Go type `http.Header`: canonical key to list of values. -/
abbrev Header := List (String × List String)

/-- The part of `*http.Request` the program reads. `form` backs `FormValue`,
`vars` is the map returned by `mux.Vars`. The request context carries no
`user` value (nothing in the repository sets one). -/
structure Request where
  method : String
  path : String
  header : Header
  form : List (String × String)
  vars : List (String × String)
  deriving DecidableEq, Repr

/-- `r.FormValue(key)`: the first value of the key, the empty string when absent. -/
def Request.FormValue (r : Request) (key : String) : String :=
  (r.form.lookup key).getD ""

/-- A recording `http.ResponseWriter`.

* `header` is the map returned by `w.Header()`;
* `statusLines` lists the `WriteHeader` calls, oldest first, each with the
  status code passed and the header map as it was at the call;
* `writes` lists the byte slices passed to `Write`, oldest first;
* `writeErr` is the error the transport returns from `Write`. -/
structure ResponseWriter where
  header : Header
  statusLines : List (Int × Header)
  writes : List (List Nat)
  writeErr : Option GoError
  deriving DecidableEq, Repr

/-- The URL fields the program reads from the result of `url.Parse`. -/
structure URL where
  Scheme : String
  Host : String
  deriving DecidableEq, Repr

/-- Library functions the program calls; the theorems hold for every choice. -/
structure Env where
  /-- `url.Parse` of `net/url` -/
  urlParse : String → Except GoError URL
  /-- bytes `json.NewEncoder(w).Encode(v)` hands to `w`, or its marshalling error -/
  jsonEncode : Option GoValue → Except GoError (List Nat)
  /-- bytes `jsoniter.NewEncoder(w).Encode(&v)` hands to `w`, or its error -/
  jsoniterEncode : Option GoValue → Except GoError (List Nat)
  /-- `etagJsoniter.Marshal(&v)`: the key-sorted serialisation -/
  etagMarshal : Option GoValue → Except GoError (List Nat)
  /-- the SHA-1 digest (`hasher.Sum(nil)` after `hasher.Write(res)`) -/
  sha1 : List Nat → List Nat
  /-- `fresh.IsFresh(requestHeader, responseHeader)` -/
  isFresh : Header → Header → Bool
  /-- `textproto.CanonicalMIMEHeaderKey`, applied by `Header.Set` -/
  canonicalKey : String → String
  /-- `http.Redirect(w, r, url, code)` -/
  httpRedirect : ResponseWriter → Option Request → String → Int →
    Except PanicVal Unit × ResponseWriter
  /-- `string(debug.Stack())` -/
  debugStack : String

/-- `w.Header().Set(key, value)`. -/
def ResponseWriter.SetHeader (env : Env) (w : ResponseWriter) (key value : String) :
    ResponseWriter :=
  { w with header :=
      (env.canonicalKey key, [value]) :: w.header.filter (fun e => e.1 ≠ env.canonicalKey key) }

/-- `w.WriteHeader(code)`. -/
def ResponseWriter.WriteHeader (w : ResponseWriter) (code : Int) : ResponseWriter :=
  { w with statusLines := w.statusLines ++ [(code, w.header)] }

/-- `w.Write(b)`: the call is recorded, the transport decides the error. -/
def ResponseWriter.Write (w : ResponseWriter) (b : List Nat) :
    Option GoError × ResponseWriter :=
  (w.writeErr, { w with writes := w.writes ++ [b] })

/-- `[]byte(s)`: the UTF-8 bytes of a string. -/
def stringBytes (s : String) : List Nat :=
  s.toUTF8.data.toList.map UInt8.toNat

/-! ## `etag.go` -/

def hexDigit (n : Nat) : Char :=
  "0123456789abcdef".toList.getD n '0'

/-- `hex.EncodeToString`. -/
def hexEncodeToString (bs : List Nat) : String :=
  String.mk (bs.flatMap (fun b => [hexDigit (b / 16 % 16), hexDigit (b % 16)]))

/-- `generateEtag`: `fmt.Sprintf("W/%q", hex)`. The verb `%q` wraps the string in
double quotes; a string of hexadecimal digits needs no escaping. The write into
the hasher never returns an error. -/
def generateEtag (env : Env) (res : List Nat) : Except GoError String :=
  .ok ("W/\"" ++ hexEncodeToString (env.sha1 res) ++ "\"")

/-- The constants `headers.ETag` and `headers.CacheControl`. -/
def headersETag : String := "ETag"
def headersCacheControl : String := "Cache-Control"

/-- `handleEtag`: returns the pair `(bool, error)` and the writer. -/
def handleEtag (env : Env) (w : ResponseWriter) (r : Option Request) (res : List Nat) :
    (Bool × Option GoError) × ResponseWriter :=
  match r with
  | none => ((false, none), w)
  | some req =>
    match generateEtag env res with
    | .error e => ((false, some e), w)
    | .ok etag =>
      let w := w.SetHeader env headersETag etag
      let w := w.SetHeader env headersCacheControl "max-age=1209600, private, no-cache"
      if env.isFresh req.header w.header then
        let w := w.WriteHeader StatusNotModified
        let res := w.Write []
        ((true, res.1), res.2)
      else
        ((false, none), w)

/-! ## `lhttp.go`: serialisation -/

def applyCustomHeaders (env : Env) (w : ResponseWriter)
    (headers : Option (List (String × String))) : ResponseWriter :=
  (headers.getD []).foldl (fun w e => w.SetHeader env e.1 e.2) w

/-- `redirect`: the type assertion `response.payload.(string)`, then `http.Redirect`. -/
def redirect (env : Env) (response : HttpResponse) (w : ResponseWriter) (r : Option Request) :
    Except PanicVal (Option GoError) × ResponseWriter :=
  match response.payload with
  | some (.str url) =>
    match env.httpRedirect w r url response.statusCode with
    | (.error p, w) => (.error p, w)
    | (.ok (), w) => (.ok none, w)
  | _ => (.error .typeAssertion, w)

/-- An encoder's `Encode`: nothing is written when marshalling fails. -/
def encodeTo (enc : Option GoValue → Except GoError (List Nat)) (w : ResponseWriter)
    (v : Option GoValue) : Option GoError × ResponseWriter :=
  match enc v with
  | .error e => (some e, w)
  | .ok bytes => w.Write bytes

def writeEtagPayload (env : Env) (w : ResponseWriter) (r : Option Request)
    (response : HttpResponse) : Except PanicVal (Option GoError) × ResponseWriter :=
  match response.payloadType with
  | textType =>
    match response.payload with
    | some (.str s) =>
      let res := stringBytes s
      let h := handleEtag env w r res
      if h.1.1 then (.ok h.1.2, h.2)
      else
        let w := h.2.WriteHeader response.statusCode
        let out := w.Write res
        (.ok out.1, out.2)
    | _ => (.error .typeAssertion, w)
  | jsonType =>
    match env.etagMarshal response.payload with
    | .error e => (.ok (some e), w)
    | .ok res =>
      let h := handleEtag env w r res
      if h.1.1 then (.ok h.1.2, h.2)
      else
        let w := h.2.WriteHeader response.statusCode
        let out := w.Write res
        (.ok out.1, out.2)
  | emptyType => (.ok none, w)
  | redirectType => (.ok (some ErrNotSupportedPayloadType), w)

def writePayload (env : Env) (w : ResponseWriter) (r : Option Request)
    (response : HttpResponse) : Except PanicVal (Option GoError) × ResponseWriter :=
  if response.payloadType = redirectType then redirect env response w r
  else if response.etag then writeEtagPayload env w r response
  else
    let w := w.WriteHeader response.statusCode
    match response.payloadType with
    | textType =>
      match response.payload with
      | some (.str s) =>
        let out := w.Write (stringBytes s)
        (.ok out.1, out.2)
      | _ => (.error .typeAssertion, w)
    | jsonType =>
      let out := encodeTo env.jsoniterEncode w response.payload
      (.ok out.1, out.2)
    | emptyType => (.ok none, w)
    | redirectType => (.ok (some ErrNotSupportedPayloadType), w)

def writeError (env : Env) (w : ResponseWriter) (response : HttpResponse) :
    Except PanicVal (Option GoError) × ResponseWriter :=
  let w := w.SetHeader env ContentTypeOptions ContentTypeOptionsNoSniff
  let w := w.WriteHeader response.statusCode
  if response.payloadType = jsonType then
    let out := encodeTo env.jsonEncode w response.payload
    (.ok out.1, out.2)
  else
    match response.payload with
    | some (.str s) =>
      let out := w.Write (stringBytes s)
      (.ok out.1, out.2)
    | _ => (.error .typeAssertion, w)

/-- `Write`: the returned `Option GoError` is the Go `error` result. -/
def Write (env : Env) (w : ResponseWriter) (r : Option Request) (response : HttpResponse) :
    Except PanicVal (Option GoError) × ResponseWriter :=
  let w := applyCustomHeaders env w response.headers
  let w := w.SetHeader env ContentTypeHeader response.contentType
  if response.isSuccessful = false then writeError env w response
  else writePayload env w r response

/-! ## `logging/logger.go`: the logger as a recorder of its calls -/

inductive Level where
  | Debug
  | Info
  | Warn
  | Error
  | Panic
  deriving DecidableEq, Repr

/-- One call on the logger. `withRequest` tells whether the entry was made
through `WithRequest(r)`; `args` are the arguments of the call. -/
structure LogEntry where
  level : Level
  withRequest : Bool
  args : List String
  deriving DecidableEq, Repr

/-- The process-wide state the handlers work on: the package variable
`shortURLs` and the entries logged so far (oldest first). -/
structure ServerState where
  shortURLs : List (String × String)
  log : List LogEntry
  deriving DecidableEq, Repr

def ServerState.emit (st : ServerState) (level : Level) (withRequest : Bool)
    (args : List String) : ServerState :=
  { st with log := st.log ++ [⟨level, withRequest, args⟩] }

/-- `logger.Panic(args...)`: logrus writes the entry and then panics (see the
comment on `PanicLevel` in `logger.go`). -/
def loggerPanic (st : ServerState) (args : List String) : Except PanicVal Unit × ServerState :=
  (.error (.logged args), st.emit .Panic false args)

/-- The write `m[k] = v` on a Go map. -/
def mapSet (m : List (String × String)) (k v : String) : List (String × String) :=
  (k, v) :: m.filter (fun e => e.1 ≠ k)

/-! ## `routers/models.go` -/

def PathAPIV1 : String := "/api/v1"

/-- The Go type `RouteHandlerFunc`. The result is a `*HttpResponse`, `none`
being the nil pointer; the handler may panic and may change the state. -/
abbrev RouteHandlerFunc :=
  Request → ServerState → Except PanicVal (Option HttpResponse) × ServerState

/-! ## `servers/url_shortener.go` -/

structure UrlShortenerServer where
  hostPort : String
  serviceUrl : String
  deriving DecidableEq, Repr

/-- `Int63ToByteArray`: the eight bytes of a `uint64`, most significant first. -/
def Int63ToByteArray (value : Nat) : List Nat :=
  let v := value % 2 ^ 64
  [v / 2 ^ 56 % 256, v / 2 ^ 48 % 256, v / 2 ^ 40 % 256, v / 2 ^ 32 % 256,
   v / 2 ^ 24 % 256, v / 2 ^ 16 % 256, v / 2 ^ 8 % 256, v % 256]

/-- The alphabet `encodeStd` of `encoding/base64`. -/
def encodeStd : List Char :=
  "ABCDEFGHIJKLMNOPQRSTUVWXYZabcdefghijklmnopqrstuvwxyz0123456789+/".toList

def base64Char (i : Nat) : Char :=
  encodeStd.getD i 'A'

/-- The characters of `base64.StdEncoding.EncodeToString`: three bytes give four
characters, a rest of one or two bytes is padded with `=`. -/
def base64Chars : List Nat → List Char
  | a :: b :: c :: rest =>
    let n := a * 65536 + b * 256 + c
    base64Char (n / 262144 % 64) :: base64Char (n / 4096 % 64) :: base64Char (n / 64 % 64) ::
      base64Char (n % 64) :: base64Chars rest
  | [a, b] =>
    let n := a * 65536 + b * 256
    [base64Char (n / 262144 % 64), base64Char (n / 4096 % 64), base64Char (n / 64 % 64), '=']
  | [a] =>
    let n := a * 65536
    [base64Char (n / 262144 % 64), base64Char (n / 4096 % 64), '=', '=']
  | [] => []

def EncodeToString (src : List Nat) : String :=
  String.mk (base64Chars src)

/-- The code `GenerateShortURL` computes from the draw of `rand.Uint64()`. -/
def shortCodeOf (draw : Nat) : String :=
  EncodeToString (Int63ToByteArray draw)

/-- `GenerateShortURL`: the code and the state after the debug entry. -/
def UrlShortenerServer.GenerateShortURL (_s : UrlShortenerServer) (draw : Nat)
    (st : ServerState) : String × ServerState :=
  let shortCode := shortCodeOf draw
  (shortCode, st.emit .Debug false ["Generated short code: ", shortCode])

/-- Lift a builder result to a handler result. -/
def respond (res : Except PanicVal HttpResponse) (st : ServerState) :
    Except PanicVal (Option HttpResponse) × ServerState :=
  match res with
  | .error p => (.error p, st)
  | .ok resp => (.ok (some resp), st)

/-- `RedirectHandler`. The `range` loop logs every entry of the map; the order
of a Go map iteration is unspecified, the list order is one such order. -/
def UrlShortenerServer.RedirectHandler (_s : UrlShortenerServer) : RouteHandlerFunc :=
  fun r st =>
    let st := st.emit .Debug false ["UrlShortenerServer.RedirectHandler"]
    match r.vars.lookup "shortURL" with
    | none =>
      let st := st.emit .Error true ["Short URL not found in request"]
      respond (BadRequest.FromTrustedMessage "Short URL not found in request") st
    | some shortURL =>
      let st := st.emit .Debug false ["Short URL found in request: ", shortURL]
      let st := st.shortURLs.foldl
        (fun acc e => acc.emit .Debug false ["shortURLs: ", e.1, " - ", e.2]) st
      match st.shortURLs.lookup shortURL with
      | none =>
        respond (NotFound.FromTrustedMessage ("Short URL not found - " ++ shortURL)) st
      | some longURL =>
        let st := st.emit .Debug false ["Long URL found for short URL: ", longURL]
        (.ok (some (Redirect.Temporary longURL)), st)

/-- `ShortenHandler`; `draw` is the value `rand.Uint64()` returns if it is called. -/
def UrlShortenerServer.ShortenHandler (s : UrlShortenerServer) (env : Env) (draw : Nat) :
    RouteHandlerFunc :=
  fun r st =>
    let st := st.emit .Debug false ["UrlShortenerServer.ShortenHandler"]
    let st := st.emit .Info false ["Shortening URL"]
    let longURL := r.FormValue "url"
    if longURL = "" then
      respond (BadRequest.FromTrustedMessage "Missing URL parameter") st
    else
      match env.urlParse longURL with
      | .error err =>
        respond (BadRequest.FromTrustedMessage
          ("Invalid URL - " ++ longURL ++ " - " ++ err.msg)) st
      | .ok parsedUrl =>
        if parsedUrl.Scheme = "" ∨ parsedUrl.Host = "" then
          respond (BadRequest.FromTrustedMessage
            ("Invalid URL - " ++ longURL ++ " - " ++ "URL is missing scheme or host")) st
        else
          let gen := s.GenerateShortURL draw st
          let shortCode := gen.1
          let st := { gen.2 with shortURLs := mapSet gen.2.shortURLs shortCode longURL }
          let shortURL := s.serviceUrl ++ PathAPIV1 ++ "/" ++ shortCode
          let st := st.emit .Info false ["Shortened URL: " ++ shortURL]
          respond (OK.toPartialSuccess.WithJSON (some (.strMap [("shortUrl", shortURL)]))) st

/-! ## `routers/router.go`: the dispatch wrapper -/

/-- The state a transport-level handler works on. -/
structure World where
  w : ResponseWriter
  st : ServerState
  deriving DecidableEq, Repr

/-- The Go type `http.Handler`, as a function on the state. -/
abbrev HttpHandler := ResponseWriter → Request → ServerState → Except PanicVal Unit × World

/-- `Router.logResponse`. -/
def Router.logResponse (_r : Request) (resp : HttpResponse) (st : ServerState) : ServerState :=
  match resp.Payload with
  | none => st
  | some (.str errMsg) =>
    if resp.StatusCode ≥ 500 then st.emit .Error true [errMsg]
    else st.emit .Warn true [errMsg]
  | some _ => st.emit .Error true ["error response did not hold the expected payload"]

/-- The handler `Router.Wrap` builds. A nil response makes `Write` dereference
a nil pointer. -/
def Router.Wrap (env : Env) (routeHandler : RouteHandlerFunc) : HttpHandler :=
  fun w r st =>
    match routeHandler r st with
    | (.error p, st) => (.error p, ⟨w, st⟩)
    | (.ok none, st) => (.error .nilDeref, ⟨w, st⟩)
    | (.ok (some resp), st) =>
      match Write env w (some r) resp with
      | (.error p, w) => (.error p, ⟨w, st⟩)
      | (.ok err, w) =>
        let wd : World :=
          match err with
          | some e => ⟨w.WriteHeader StatusInternalServerError, st.emit .Error true [e.msg]⟩
          | none => ⟨w, st⟩
        if resp.IsSuccessful = false then
          (.ok (), { wd with st := Router.logResponse r resp wd.st })
        else (.ok (), wd)

/-- A Go function with one deferred closure. The closure runs when the body has
returned or panicked and receives what its call of `recover()` returns: the
panic of the body, or `none` when the body returned normally. The closures of
this program call `recover()` first, so a panic of the body ends there; a panic
raised by the closure itself leaves the function. -/
def withDefer (body : World → Except PanicVal Unit × World)
    (deferred : Option PanicVal → World → Except PanicVal Unit × World) (wd : World) :
    Except PanicVal Unit × World :=
  match body wd with
  | (.ok (), wd) => deferred none wd
  | (.error p, wd) => deferred (some p) wd

/-- The closure deferred by `Router.handle`: the recovery branch, then the
call `handler.ServeHTTP(w, r)`. -/
def Router.handleDeferred (env : Env) (handler : HttpHandler) (r : Request)
    (rec : Option PanicVal) (wd : World) : Except PanicVal Unit × World :=
  let recovered : Except PanicVal Unit × World :=
    match rec with
    | some _ =>
      match loggerPanic wd.st ["panic in router handler", env.debugStack] with
      | (.error p, st) => (.error p, { wd with st := st })
      | (.ok (), st) =>
        match InternalServerError.FromTrustedMessage "Internal Server Error" with
        | .error p => (.error p, { wd with st := st })
        | .ok resp =>
          match Write env wd.w (some r) resp with
          | (.error p, w) => (.error p, { w := w, st := st })
          | (.ok _, w) => (.ok (), { w := w, st := st })
    | none => (.ok (), wd)
  match recovered with
  | (.error p, wd) => (.error p, wd)
  | (.ok (), wd) => handler wd.w r wd.st

/-- The transport-level handler `Router.handle` registers. -/
def Router.handle (env : Env) (handler : HttpHandler) : HttpHandler :=
  fun w r st =>
    withDefer
      (fun wd => (.ok (), { wd with st := wd.st.emit .Debug false ["brej", r.path] }))
      (Router.handleDeferred env handler r)
      ⟨w, st⟩

/-- The handler `Router.HandleFunc` registers for a route: `handle` around the
negroni chain of the logging middleware and `Wrap`. -/
def Router.HandleFunc (env : Env) (handler : RouteHandlerFunc) : HttpHandler :=
  Router.handle env (fun w r st =>
    Router.Wrap env handler w r (st.emit .Debug false ["Router.HandleFunc: ", r.path]))

/-! ## A concrete environment

Simple stand-ins for the library functions, used only to instantiate the
theorems at concrete inputs. -/

/-- Split `scheme://rest` at the first `://`. -/
def splitScheme : List Char → List Char → Option (List Char × List Char)
  | acc, ':' :: '/' :: '/' :: rest => some (acc.reverse, rest)
  | acc, c :: rest => splitScheme (c :: acc) rest
  | _, [] => none

/-- A stand-in for `url.Parse`: a space makes the parse fail; `scheme://host/...`
gives the scheme and the host; anything else has neither. -/
def sampleUrlParse (u : String) : Except GoError URL :=
  if ' ' ∈ u.toList then .error ⟨"invalid character in URL"⟩
  else
    match splitScheme [] u.toList with
    | some (scheme, rest) => .ok ⟨String.mk scheme, String.mk (rest.takeWhile (· ≠ '/'))⟩
    | none => .ok ⟨"", ""⟩

/-- A stand-in for the JSON encoders: strings only. -/
def sampleJson (v : Option GoValue) : Except GoError (List Nat) :=
  match v with
  | none => .ok (stringBytes "null")
  | some (.str t) => .ok (stringBytes ("\"" ++ t ++ "\""))
  | some _ => .error ⟨"json: unsupported value"⟩

/-- A stand-in for the freshness test: the validator of the request equals the
entity tag of the response. -/
def sampleIsFresh (req res : Header) : Bool :=
  match req.lookup "If-None-Match", res.lookup "ETag" with
  | some a, some b => a == b
  | _, _ => false

/-- A stand-in for `http.Redirect`: the `Location` header and the status line. -/
def sampleRedirect (w : ResponseWriter) (_r : Option Request) (url : String) (code : Int) :
    Except PanicVal Unit × ResponseWriter :=
  (.ok (),
    ({ w with header := ("Location", [url]) :: w.header.filter (fun e => e.1 ≠ "Location") }
      ).WriteHeader code)

def sampleEnv : Env :=
  { urlParse := sampleUrlParse
    jsonEncode := sampleJson
    jsoniterEncode := sampleJson
    etagMarshal := sampleJson
    sha1 := fun bs => [bs.length % 256, bs.sum % 256]
    isFresh := sampleIsFresh
    canonicalKey := fun k => k
    httpRedirect := sampleRedirect
    debugStack := "goroutine 1 [running]" }

def sampleServer : UrlShortenerServer :=
  { hostPort := "127.0.0.1:18080", serviceUrl := "http://127.0.0.1:18080" }

def emptyWriter : ResponseWriter :=
  { header := [], statusLines := [], writes := [], writeErr := none }

def emptyState : ServerState :=
  { shortURLs := [], log := [] }

/-- The request `POST /api/v1/shorten` with the form value `url`. -/
def shortenRequest (url : String) : Request :=
  { method := "POST", path := "/api/v1/shorten", header := [], form := [("url", url)],
    vars := [] }

/-- The request `GET /api/v1/code` as mux hands it over: the path variable is set. -/
def redirectRequest (code : String) : Request :=
  { method := "GET", path := "/api/v1/" ++ code, header := [], form := [],
    vars := [("shortURL", code)] }

/-- A route handler with a defect: it asks the builder for a JSON response
with a nil payload, which panics. -/
def panickingHandler : RouteHandlerFunc :=
  fun _ st => respond (OK.toPartialSuccess.WithJSON none) st

/-- A successful text response that opted into conditional caching:
`Created().Etag().WithText("hello")`. -/
def cachedText : HttpResponse :=
  Created.Etag.WithText "hello"

/-- The value `generateEtag` gives the ETag header for the serialised bytes. -/
def etagOf (env : Env) (bytes : List Nat) : String :=
  "W/\"" ++ hexEncodeToString (env.sha1 bytes) ++ "\""

/-- The failure statuses the builder offers as a first step: the fifteen fixed
ones of `response_messages.go` and `CustomError` at any status. -/
def IsFailStart (p : PartialFail) : Prop :=
  p ∈ [BadRequest, Unauthorized, PaymentRequired, Forbidden, NotFound, MethodNotAllowed,
       Conflict, NotAcceptable, Locked, RequestEntityTooLarge, StatusGoneResponse,
       PreconditionFailed, InternalServerError, NotImplemented, Unavailable]
  ∨ ∃ status, p = CustomError status

/-! ## Notions used to state the properties -/

/-- The position of a character in the alphabet `encodeStd` (64 when it is not
in the alphabet). -/
def base64Index (c : Char) : Nat :=
  encodeStd.indexOf c

/-- One path segment: what the gorilla/mux variable `{shortURL}` of the route
`/{shortURL}` matches (its default pattern is `[^/]+`). -/
def isPathSegment (s : String) : Bool :=
  s ≠ "" && !(s.toList.contains '/')

/-- The entry of a header map under the canonical key `c` is `val`. -/
def HasEntry (c : String) (val : Option (List String)) (h : Header) : Prop :=
  h.lookup c = val

/-- From writer `w1` to writer `w2` the entry under the canonical key `c` is
`val`: in the final header map and in the header map of every status line
written in between. -/
def KeepsEntry (c : String) (val : Option (List String)) (w1 w2 : ResponseWriter) : Prop :=
  HasEntry c val w2.header ∧
  ∃ added, w2.statusLines = w1.statusLines ++ added ∧
    ∀ e ∈ added, HasEntry c val e.2

/-- The Content-Type entry of a header map is the single value `ct`. -/
def HasContentType (env : Env) (ct : String) (h : Header) : Prop :=
  HasEntry (env.canonicalKey ContentTypeHeader) (some [ct]) h

/-- From writer `w1` to writer `w2` the Content-Type stays `ct`: it is the entry
of the final header map and of the header map of every status line written in
between. -/
def KeepsContentType (env : Env) (ct : String) (w1 w2 : ResponseWriter) : Prop :=
  KeepsEntry (env.canonicalKey ContentTypeHeader) (some [ct]) w1 w2

/-- The value a caller header map gives the canonical key `c`: the value of the
last entry, in iteration order, whose key canonicalises to `c`; `none` when the
map has no such entry. -/
def callerValue (env : Env) (c : String) : List (String × String) → Option String
  | [] => none
  | e :: rest =>
    match callerValue env c rest with
    | some v => some v
    | none => if env.canonicalKey e.1 = c then some e.2 else none

/-- The entry under the canonical key `c` once the caller header map `headers`
has been applied to a header map `h`: the caller value when the map has one,
the entry of `h` otherwise. -/
def appliedEntry (env : Env) (c : String) (headers : Option (List (String × String)))
    (h : Header) : Option (List String) :=
  match callerValue env c (headers.getD []) with
  | some v => some [v]
  | none => h.lookup c

/-- The canonical key `c` is none of the keys the framework sets itself. -/
def IsCallerKey (env : Env) (c : String) : Prop :=
  c ≠ env.canonicalKey ContentTypeHeader ∧ c ≠ env.canonicalKey ContentTypeOptions ∧
  c ≠ env.canonicalKey headersETag ∧ c ≠ env.canonicalKey headersCacheControl

/-- What the serialisation relies on in the libraries: the header keys the
framework sets after Content-Type are other headers than Content-Type, and
`http.Redirect` leaves a Content-Type that is already set as it is. -/
def LibraryKeepsContentType (env : Env) : Prop :=
  env.canonicalKey ContentTypeOptions ≠ env.canonicalKey ContentTypeHeader ∧
  env.canonicalKey headersETag ≠ env.canonicalKey ContentTypeHeader ∧
  env.canonicalKey headersCacheControl ≠ env.canonicalKey ContentTypeHeader ∧
  ∀ (w : ResponseWriter) (r : Option Request) (url : String) (code : Int) (v : List String),
    w.header.lookup (env.canonicalKey ContentTypeHeader) = some v →
    (env.httpRedirect w r url code).2.header.lookup (env.canonicalKey ContentTypeHeader) = some v

/-- A successful JSON response with caller headers that contain their own
Content-Type entry. -/
def jsonWithCallerHeaders : HttpResponse :=
  { newResponse StatusOK with
    payload := some (.str "ok"), payloadType := jsonType, contentType := ContentAppJSON,
    headers := some [("Content-Type", "text/html"), ("X-Request-Id", "42")] }

/-! ## Theorems: the builder -/

theorem IsFailStart.not_successful {p : PartialFail} (h : IsFailStart p) :
    p.response.isSuccessful = false := by
  rcases h with h | ⟨status, rfl⟩
  · simp only [List.mem_cons, List.mem_singleton, List.not_mem_nil, or_false] at h
    rcases h with h | h | h | h | h | h | h | h | h | h | h | h | h | h | h <;> subst h <;> rfl
  · rfl

/-- C6: each payload step of the builder panics exactly on a contract
violation (`WithJSON` on nil, `FromTrustedMessage` on the empty message,
`FromTrustedError` on a nil error or an empty message); otherwise it returns the
response with that payload, the status code and the success flag of the first
step unchanged, and `WithJSON` records the kind json and the JSON content type.
Hence a failed response obtained from a failure status carries a non-empty
message or a non-nil JSON value. -/
theorem payload_steps_contract (ps : PartialSuccess) (pf : PartialFail)
    (v : Option GoValue) (m : String) (e : Option GoError) :
    ((∃ p, ps.WithJSON v = .error p) ↔ v = none) ∧
    ((∃ p, pf.WithJSON v = .error p) ↔ v = none) ∧
    ((∃ p, pf.FromTrustedMessage m = .error p) ↔ m = "") ∧
    ((∃ p, pf.FromTrustedError e = .error p) ↔ (e = none ∨ ∃ x, e = some x ∧ x.msg = "")) ∧
    (∀ r, ps.WithJSON v = .ok r →
      r.payload = v ∧ r.payloadType = jsonType ∧ r.contentType = ContentAppJSON ∧
      r.statusCode = ps.response.statusCode ∧ r.isSuccessful = ps.response.isSuccessful) ∧
    (∀ r, pf.WithJSON v = .ok r →
      r.payload = v ∧ r.payloadType = jsonType ∧ r.contentType = ContentAppJSON ∧
      r.statusCode = pf.response.statusCode ∧ r.isSuccessful = pf.response.isSuccessful) ∧
    (∀ r, pf.FromTrustedMessage m = .ok r →
      r.payload = some (.str m) ∧
      r.statusCode = pf.response.statusCode ∧ r.isSuccessful = pf.response.isSuccessful) ∧
    (∀ r, pf.FromTrustedError e = .ok r →
      (∃ x, e = some x ∧ r.payload = some (.str x.msg)) ∧
      r.statusCode = pf.response.statusCode ∧ r.isSuccessful = pf.response.isSuccessful) ∧
    (∀ r, IsFailStart pf →
      (pf.FromTrustedMessage m = .ok r ∨ pf.FromTrustedError e = .ok r ∨ pf.WithJSON v = .ok r) →
      r.isSuccessful = false ∧
      ((∃ t, t ≠ "" ∧ r.payload = some (.str t)) ∨
       (r.payloadType = jsonType ∧ r.payload ≠ none))) := by
  refine ⟨?_, ?_, ?_, ?_, ?_, ?_, ?_, ?_, ?_⟩
  · cases v <;> simp [PartialSuccess.WithJSON]
  · cases v <;> simp [PartialFail.WithJSON]
  · by_cases hm : m = "" <;> simp [PartialFail.FromTrustedMessage, hm]
  · rcases e with _ | x
    · simp [PartialFail.FromTrustedError]
    · by_cases hx : x.msg = "" <;> simp [PartialFail.FromTrustedError, hx]
  · intro r h
    cases v with
    | none => simp [PartialSuccess.WithJSON] at h
    | some x =>
      simp only [PartialSuccess.WithJSON, Except.ok.injEq] at h
      subst h
      simp
  · intro r h
    cases v with
    | none => simp [PartialFail.WithJSON] at h
    | some x =>
      simp only [PartialFail.WithJSON, Except.ok.injEq] at h
      subst h
      simp
  · intro r h
    by_cases hm : m = ""
    · simp [PartialFail.FromTrustedMessage, hm] at h
    · simp only [PartialFail.FromTrustedMessage, hm, if_false, Except.ok.injEq] at h
      subst h
      simp
  · intro r h
    rcases e with _ | x
    · simp [PartialFail.FromTrustedError] at h
    · by_cases hx : x.msg = ""
      · simp [PartialFail.FromTrustedError, hx] at h
      · simp only [PartialFail.FromTrustedError, hx, if_false, Except.ok.injEq] at h
        subst h
        simp
  · intro r hstart h
    have hfail := hstart.not_successful
    rcases h with h | h | h
    · by_cases hm : m = ""
      · simp [PartialFail.FromTrustedMessage, hm] at h
      · simp only [PartialFail.FromTrustedMessage, hm, if_false, Except.ok.injEq] at h
        subst h
        exact ⟨hfail, Or.inl ⟨m, hm, rfl⟩⟩
    · rcases e with _ | x
      · simp [PartialFail.FromTrustedError] at h
      · by_cases hx : x.msg = ""
        · simp [PartialFail.FromTrustedError, hx] at h
        · simp only [PartialFail.FromTrustedError, hx, if_false, Except.ok.injEq] at h
          subst h
          exact ⟨hfail, Or.inl ⟨x.msg, hx, rfl⟩⟩
    · cases v with
      | none => simp [PartialFail.WithJSON] at h
      | some x =>
        simp only [PartialFail.WithJSON, Except.ok.injEq] at h
        subst h
        exact ⟨hfail, Or.inr ⟨rfl, by simp⟩⟩

/-- The contract of C6 at a concrete failure status: `NotFound` with the message
`gone` is a failed 404 response carrying that message. -/
theorem payload_steps_contract_witness :
    ∀ r, NotFound.FromTrustedMessage "gone" = .ok r →
      r.payload = some (.str "gone") ∧
      r.statusCode = NotFound.response.statusCode ∧
      r.isSuccessful = NotFound.response.isSuccessful :=
  (payload_steps_contract Created NotFound none "gone" none).2.2.2.2.2.2.1

/-- C7 as stated fails: `Permanent` answers with status 308, which is none of
301, 302, 307. -/
theorem Redirect_Permanent_counterexample :
    ¬ ((Redirect.Permanent "https://example.com/page").payloadType = redirectType ∧
       (Redirect.Permanent "https://example.com/page").isSuccessful = true ∧
       (Redirect.Permanent "https://example.com/page").payload
          = some (.str "https://example.com/page") ∧
       ((Redirect.Permanent "https://example.com/page").statusCode = 301 ∨
        (Redirect.Permanent "https://example.com/page").statusCode = 302 ∨
        (Redirect.Permanent "https://example.com/page").statusCode = 307)) := by
  simp [PartialRedirect.Permanent, Redirect, StatusPermanentRedirect]

/-- C7 (amended): every response of the redirect builder (`Redirect()` followed
by `Found`, `Temporary` or `Permanent` at any URL) has payload kind redirect, is
successful, carries the URL as payload, and has status 302, 307 or 308
respectively. -/
theorem Redirect_invariant (url : String) (resp : HttpResponse)
    (h : resp = Redirect.Found url ∨ resp = Redirect.Temporary url ∨
         resp = Redirect.Permanent url) :
    resp.payloadType = redirectType ∧ resp.isSuccessful = true ∧
    resp.payload = some (.str url) ∧
    (resp.statusCode = 302 ∨ resp.statusCode = 307 ∨ resp.statusCode = 308) ∧
    (Redirect.Found url).statusCode = 302 ∧ (Redirect.Temporary url).statusCode = 307 ∧
    (Redirect.Permanent url).statusCode = 308 := by
  rcases h with h | h | h <;> subst h <;>
    simp [PartialRedirect.Found, PartialRedirect.Temporary, PartialRedirect.Permanent, Redirect,
      StatusFound, StatusTemporaryRedirect, StatusPermanentRedirect]

/-- The redirect invariant at the permanent redirect to a concrete URL. -/
theorem Redirect_invariant_witness :
    (Redirect.Permanent "https://example.com/page").payloadType = redirectType ∧
    (Redirect.Permanent "https://example.com/page").isSuccessful = true ∧
    (Redirect.Permanent "https://example.com/page").payload
      = some (.str "https://example.com/page") ∧
    ((Redirect.Permanent "https://example.com/page").statusCode = 302 ∨
     (Redirect.Permanent "https://example.com/page").statusCode = 307 ∨
     (Redirect.Permanent "https://example.com/page").statusCode = 308) ∧
    (Redirect.Found "https://example.com/page").statusCode = 302 ∧
    (Redirect.Temporary "https://example.com/page").statusCode = 307 ∧
    (Redirect.Permanent "https://example.com/page").statusCode = 308 :=
  Redirect_invariant "https://example.com/page" _ (Or.inr (Or.inr rfl))

/-- C8: for every integer status, `CustomError` yields a failed response whose
status code is the given one when it lies in `[400, 599]` and 500 otherwise, so
it always lies in `[400, 599]`. -/
theorem CustomError_status (status : Int) :
    (CustomError status).response.isSuccessful = false ∧
    (CustomError status).response.statusCode
      = (if 400 ≤ status ∧ status ≤ 599 then status else 500) ∧
    400 ≤ (CustomError status).response.statusCode ∧
    (CustomError status).response.statusCode ≤ 599 := by
  unfold CustomError newErrorResponse
  by_cases h : status < 400 ∨ status > 599
  · have h2 : ¬ (400 ≤ status ∧ status ≤ 599) := by omega
    simp [h, h2]
  · have h2 : 400 ≤ status ∧ status ≤ 599 := by omega
    simp [h, h2]

/-! ## Theorems: the short-link store and the two handlers -/

theorem lookup_mapSet_self (m : List (String × String)) (k v : String) :
    (mapSet m k v).lookup k = some v := by
  simp [mapSet, List.lookup]

theorem lookup_filter_ne (m : List (String × String)) (k c : String) (h : c ≠ k) :
    (m.filter (fun e => e.1 ≠ k)).lookup c = m.lookup c := by
  induction m with
  | nil => rfl
  | cons e rest ih =>
    obtain ⟨a, b⟩ := e
    simp only [ne_eq, decide_not] at ih ⊢
    by_cases hak : a = k
    · subst hak
      have hca : (c == a) = false := by simpa using h
      simp [List.filter, List.lookup, hca, ih]
    · by_cases hca : c = a
      · subst hca
        simp [List.filter, hak, List.lookup]
      · have hca2 : (c == a) = false := by simpa using hca
        simp [List.filter, hak, List.lookup, hca2, ih]

theorem lookup_mapSet_ne (m : List (String × String)) (k v c : String) (h : c ≠ k) :
    (mapSet m k v).lookup c = m.lookup c := by
  have hck : (c == k) = false := by simpa using h
  simp only [mapSet, List.lookup, hck]
  exact lookup_filter_ne m k c h

theorem emit_shortURLs (st : ServerState) (level : Level) ( b : Bool) (args : List String) :
    (st.emit level b args).shortURLs = st.shortURLs := rfl

theorem foldl_emit_shortURLs (l : List (String × String)) (f : String × String → List String)
    (st : ServerState) :
    (l.foldl (fun acc e => acc.emit .Debug false (f e)) st).shortURLs = st.shortURLs := by
  induction l generalizing st with
  | nil => rfl
  | cons e rest ih => simp [List.foldl, ih, emit_shortURLs]

theorem append_ne_empty (a b : String) (h : 0 < a.length) : a ++ b ≠ "" := by
  intro heq
  have hlen := congrArg String.length heq
  simp only [String.length_append] at hlen
  have h0 : ("" : String).length = 0 := rfl
  omega

theorem respond_ok (resp : HttpResponse) (st : ServerState) :
    respond (.ok resp) st = (.ok (some resp), st) := rfl

theorem FromTrustedMessage_ok (p : PartialFail) (m : String) (h : m ≠ "") :
    p.FromTrustedMessage m = .ok { p.response with payload := some (.str m) } := by
  simp [PartialFail.FromTrustedMessage, h]

/-- What `ShortenHandler` does on a valid absolute URL. -/
theorem ShortenHandler_valid (s : UrlShortenerServer) (env : Env) (draw : Nat)
    (r : Request) (st : ServerState) (p : URL)
    (hne : r.FormValue "url" ≠ "") (hparse : env.urlParse (r.FormValue "url") = .ok p)
    (hscheme : p.Scheme ≠ "") (hhost : p.Host ≠ "") :
    ∃ log,
      s.ShortenHandler env draw r st =
        (.ok (some
          { statusCode := 200, isSuccessful := true, contentType := ContentAppJSON,
            payload := some (.strMap
              [("shortUrl", s.serviceUrl ++ PathAPIV1 ++ "/" ++ shortCodeOf draw)]),
            payloadType := jsonType, headers := none, etag := false }),
         { shortURLs := mapSet st.shortURLs (shortCodeOf draw) (r.FormValue "url"),
           log := log }) := by
  simp only [UrlShortenerServer.ShortenHandler, hne, if_false, hparse, hscheme, hhost, or_self,
    UrlShortenerServer.GenerateShortURL, PartialSuccess.WithJSON, respond_ok, OK, newResponse,
    StatusOK, ServerState.emit]
  exact ⟨_, rfl⟩

/-- What `ShortenHandler` does on every other input: a 400 answer, the state
changed by two log entries only. -/
theorem ShortenHandler_invalid (s : UrlShortenerServer) (env : Env) (draw : Nat)
    (r : Request) (st : ServerState)
    (h : r.FormValue "url" = "" ∨ (∃ e, env.urlParse (r.FormValue "url") = .error e) ∨
      (∃ p, env.urlParse (r.FormValue "url") = .ok p ∧ (p.Scheme = "" ∨ p.Host = ""))) :
    ∃ msg, msg ≠ "" ∧
      (r.FormValue "url" ≠ "" → ∃ tail, msg = "Invalid URL" ++ tail) ∧
      s.ShortenHandler env draw r st =
        (.ok (some { newErrorResponse 400 with payload := some (.str msg) }),
         (st.emit .Debug false ["UrlShortenerServer.ShortenHandler"]).emit .Info false
            ["Shortening URL"]) := by
  have hlit : ("Invalid URL - " : String) = "Invalid URL" ++ " - " := by decide
  by_cases hempty : r.FormValue "url" = ""
  · refine ⟨"Missing URL parameter", by decide, fun hc => absurd hempty hc, ?_⟩
    simp only [UrlShortenerServer.ShortenHandler, hempty, if_true]
    rw [FromTrustedMessage_ok _ _ (by decide)]
    rfl
  · rcases h with h | ⟨e, he⟩ | ⟨p, hp, hsh⟩
    · exact absurd h hempty
    · refine ⟨"Invalid URL - " ++ r.FormValue "url" ++ " - " ++ e.msg, ?_, fun _ => ?_, ?_⟩
      · simp only [String.append_assoc]
        exact append_ne_empty _ _ (by decide)
      · exact ⟨" - " ++ (r.FormValue "url" ++ (" - " ++ e.msg)), by
          rw [hlit]; simp only [String.append_assoc]⟩
      · simp only [UrlShortenerServer.ShortenHandler, hempty, if_false, he]
        rw [FromTrustedMessage_ok _ _ (by
          simp only [String.append_assoc]
          exact append_ne_empty _ _ (by decide))]
        rfl
    · refine ⟨"Invalid URL - " ++ r.FormValue "url" ++ " - " ++ "URL is missing scheme or host",
        ?_, fun _ => ?_, ?_⟩
      · simp only [String.append_assoc]
        exact append_ne_empty _ _ (by decide)
      · exact ⟨" - " ++ (r.FormValue "url" ++ (" - " ++ "URL is missing scheme or host")), by
          rw [hlit]; simp only [String.append_assoc]⟩
      · simp only [UrlShortenerServer.ShortenHandler, hempty, if_false, hp, hsh, if_true]
        rw [FromTrustedMessage_ok _ _ (by
          simp only [String.append_assoc]
          exact append_ne_empty _ _ (by decide))]
        rfl

/-- `RedirectHandler` on a code the store knows. -/
theorem RedirectHandler_found (s : UrlShortenerServer) (r : Request) (st : ServerState)
    (c u : String) (hvar : r.vars.lookup "shortURL" = some c)
    (hlook : st.shortURLs.lookup c = some u) :
    ∃ st2, s.RedirectHandler r st = (.ok (some (Redirect.Temporary u)), st2) ∧
      st2.shortURLs = st.shortURLs := by
  simp only [UrlShortenerServer.RedirectHandler, hvar, foldl_emit_shortURLs, emit_shortURLs,
    hlook]
  exact ⟨_, rfl, by simp only [emit_shortURLs, foldl_emit_shortURLs]⟩

/-- `RedirectHandler` on a code the store does not know. -/
theorem RedirectHandler_unknown (s : UrlShortenerServer) (r : Request) (st : ServerState)
    (c : String) (hvar : r.vars.lookup "shortURL" = some c)
    (hlook : st.shortURLs.lookup c = none) :
    ∃ st2, s.RedirectHandler r st =
      (.ok (some { newErrorResponse 404 with
                    payload := some (.str ("Short URL not found - " ++ c)) }), st2) ∧
      st2.shortURLs = st.shortURLs := by
  simp only [UrlShortenerServer.RedirectHandler, hvar, foldl_emit_shortURLs, emit_shortURLs,
    hlook]
  rw [FromTrustedMessage_ok _ _ (append_ne_empty _ _ (by decide))]
  exact ⟨_, rfl, by simp only [emit_shortURLs, foldl_emit_shortURLs]⟩

/-- `RedirectHandler` on a request without the path variable. -/
theorem RedirectHandler_absent (s : UrlShortenerServer) (r : Request) (st : ServerState)
    (hvar : r.vars.lookup "shortURL" = none) :
    ∃ st2, s.RedirectHandler r st =
      (.ok (some { newErrorResponse 400 with
                    payload := some (.str "Short URL not found in request") }), st2) ∧
      st2.shortURLs = st.shortURLs := by
  simp only [UrlShortenerServer.RedirectHandler, hvar]
  rw [FromTrustedMessage_ok _ _ (by decide)]
  exact ⟨_, rfl, rfl⟩

/-- C1 (round trip): for every store state and every non-empty long URL `u` that
parses with a non-empty scheme and host, `ShortenHandler` succeeds with status
200 and stores `u` under the generated code, and `RedirectHandler` called on the
resulting state with the path variable `shortURL` set to that code returns a
successful redirect response with status 307 whose payload is exactly `u`. -/
theorem shorten_then_redirect_round_trip (s : UrlShortenerServer) (env : Env) (draw : Nat)
    (r r2 : Request) (st : ServerState) (u : String) (p : URL)
    (hform : r.FormValue "url" = u) (hne : u ≠ "")
    (hparse : env.urlParse u = .ok p) (hscheme : p.Scheme ≠ "") (hhost : p.Host ≠ "")
    (hvar : r2.vars.lookup "shortURL" = some (shortCodeOf draw)) :
    ∃ created st2 resp st3,
      s.ShortenHandler env draw r st = (.ok (some created), st2) ∧
      created.isSuccessful = true ∧ created.statusCode = 200 ∧
      st2.shortURLs.lookup (shortCodeOf draw) = some u ∧
      s.RedirectHandler r2 st2 = (.ok (some resp), st3) ∧
      resp.isSuccessful = true ∧ resp.payloadType = redirectType ∧
      resp.statusCode = 307 ∧ resp.payload = some (.str u) := by
  subst hform
  obtain ⟨log, hs⟩ := ShortenHandler_valid s env draw r st p hne hparse hscheme hhost
  have hlook := lookup_mapSet_self st.shortURLs (shortCodeOf draw) (r.FormValue "url")
  obtain ⟨st3, hr, _⟩ := RedirectHandler_found s r2
    { shortURLs := mapSet st.shortURLs (shortCodeOf draw) (r.FormValue "url"), log := log }
    (shortCodeOf draw) (r.FormValue "url") hvar hlook
  exact ⟨_, _, _, _, hs, rfl, rfl, hlook, hr, rfl, rfl, rfl, rfl⟩

/-- The round trip at `https://example.com/page` with the draw 0, whose code is
`AAAAAAAAAAA=`. -/
theorem shorten_then_redirect_round_trip_witness :
    ∃ created st2 resp st3,
      sampleServer.ShortenHandler sampleEnv 0 (shortenRequest "https://example.com/page")
        emptyState = (.ok (some created), st2) ∧
      created.isSuccessful = true ∧ created.statusCode = 200 ∧
      st2.shortURLs.lookup (shortCodeOf 0) = some "https://example.com/page" ∧
      sampleServer.RedirectHandler (redirectRequest "AAAAAAAAAAA=") st2
        = (.ok (some resp), st3) ∧
      resp.isSuccessful = true ∧ resp.payloadType = redirectType ∧
      resp.statusCode = 307 ∧ resp.payload = some (.str "https://example.com/page") :=
  shorten_then_redirect_round_trip sampleServer sampleEnv 0
    (shortenRequest "https://example.com/page") (redirectRequest "AAAAAAAAAAA=") emptyState
    "https://example.com/page" ⟨"https", "example.com"⟩ rfl (by decide) rfl (by decide)
    (by decide) rfl

/-- C2: for every form value that is empty, fails to parse, or parses with an
empty scheme or an empty host, `ShortenHandler` returns a failed response with
status 400 and a non-empty string message, which starts with `Invalid URL` when
the value is non-empty, and the short-link store is exactly as before. -/
theorem shorten_rejects_invalid (s : UrlShortenerServer) (env : Env) (draw : Nat)
    (r : Request) (st : ServerState) (u : String) (hform : r.FormValue "url" = u)
    (h : u = "" ∨ (∃ e, env.urlParse u = .error e) ∨
      (∃ p, env.urlParse u = .ok p ∧ (p.Scheme = "" ∨ p.Host = ""))) :
    ∃ resp st2 msg,
      s.ShortenHandler env draw r st = (.ok (some resp), st2) ∧
      resp.isSuccessful = false ∧ resp.statusCode = 400 ∧
      resp.payload = some (.str msg) ∧ msg ≠ "" ∧
      (u ≠ "" → ∃ tail, msg = "Invalid URL" ++ tail) ∧
      st2.shortURLs = st.shortURLs := by
  subst hform
  obtain ⟨msg, hmsg, htail, hs⟩ := ShortenHandler_invalid s env draw r st h
  exact ⟨_, _, msg, hs, rfl, rfl, rfl, hmsg, htail, rfl⟩

/-- The rejection at the form value `not-a-url`, which has neither scheme nor
host. -/
theorem shorten_rejects_invalid_witness :
    ∃ resp st2 msg,
      sampleServer.ShortenHandler sampleEnv 7 (shortenRequest "not-a-url") emptyState
        = (.ok (some resp), st2) ∧
      resp.isSuccessful = false ∧ resp.statusCode = 400 ∧
      resp.payload = some (.str msg) ∧ msg ≠ "" ∧
      ("not-a-url" ≠ "" → ∃ tail, msg = "Invalid URL" ++ tail) ∧
      st2.shortURLs = emptyState.shortURLs :=
  shorten_rejects_invalid sampleServer sampleEnv 7 (shortenRequest "not-a-url") emptyState
    "not-a-url" rfl (Or.inr (Or.inr ⟨⟨"", ""⟩, rfl, Or.inl rfl⟩))

/-- C3: for every store state and every code that is not a key of the store,
`RedirectHandler` with that code as path variable returns a failed response with
status 404 whose payload is `Short URL not found - ` followed by the code, and
the store is unchanged; on a request without the path variable it returns a
failed response with status 400. -/
theorem redirect_unknown_code (s : UrlShortenerServer) (r r0 : Request) (st : ServerState)
    (c : String) (hkey : st.shortURLs.lookup c = none)
    (hvar : r.vars.lookup "shortURL" = some c)
    (habsent : r0.vars.lookup "shortURL" = none) :
    (∃ resp st2,
      s.RedirectHandler r st = (.ok (some resp), st2) ∧
      resp.isSuccessful = false ∧ resp.statusCode = 404 ∧
      resp.payload = some (.str ("Short URL not found - " ++ c)) ∧
      st2.shortURLs = st.shortURLs) ∧
    (∃ resp st2,
      s.RedirectHandler r0 st = (.ok (some resp), st2) ∧
      resp.isSuccessful = false ∧ resp.statusCode = 400 ∧
      st2.shortURLs = st.shortURLs) := by
  obtain ⟨st1, h1, hst1⟩ := RedirectHandler_unknown s r st c hvar hkey
  obtain ⟨st0, h0, hst0⟩ := RedirectHandler_absent s r0 st habsent
  exact ⟨⟨_, _, h1, rfl, rfl, rfl, hst1⟩, ⟨_, _, h0, rfl, rfl, hst0⟩⟩

/-- The unknown code `does-not-exist` on a store holding one other entry, and a
request that carries no path variable. -/
theorem redirect_unknown_code_witness :
    (∃ resp st2,
      sampleServer.RedirectHandler (redirectRequest "does-not-exist")
        ⟨[("AAAAAAAAAAA=", "https://example.com/page")], []⟩ = (.ok (some resp), st2) ∧
      resp.isSuccessful = false ∧ resp.statusCode = 404 ∧
      resp.payload = some (.str ("Short URL not found - " ++ "does-not-exist")) ∧
      st2.shortURLs
        = (⟨[("AAAAAAAAAAA=", "https://example.com/page")], []⟩ : ServerState).shortURLs) ∧
    (∃ resp st2,
      sampleServer.RedirectHandler (shortenRequest "x")
        ⟨[("AAAAAAAAAAA=", "https://example.com/page")], []⟩ = (.ok (some resp), st2) ∧
      resp.isSuccessful = false ∧ resp.statusCode = 400 ∧
      st2.shortURLs
        = (⟨[("AAAAAAAAAAA=", "https://example.com/page")], []⟩ : ServerState).shortURLs) :=
  redirect_unknown_code sampleServer (redirectRequest "does-not-exist") (shortenRequest "x")
    ⟨[("AAAAAAAAAAA=", "https://example.com/page")], []⟩ "does-not-exist"
    (by decide) (by decide) (by decide)

/-- C5 as stated fails: the store maps the code of the draw 0 to an old target,
and a create with that draw replaces the target. -/
theorem shorten_overwrites_counterexample :
    ¬ (∀ c t,
        (⟨[("AAAAAAAAAAA=", "https://old.example/")], []⟩ : ServerState).shortURLs.lookup c
          = some t →
        (sampleServer.ShortenHandler sampleEnv 0 (shortenRequest "https://new.example/")
          ⟨[("AAAAAAAAAAA=", "https://old.example/")], []⟩).2.shortURLs.lookup c = some t) := by
  intro h
  have h1 := h "AAAAAAAAAAA=" "https://old.example/" (by decide)
  revert h1
  decide

/-- C5 (amended): for every store state, request and draw, every code other
than the one generated from the draw maps after `ShortenHandler` to what it
mapped to before; and when the long URL is valid, the generated code maps to the
new long URL, whatever it mapped to before. -/
theorem shorten_frame (s : UrlShortenerServer) (env : Env) (draw : Nat)
    (r : Request) (st : ServerState) (c : String) (hc : c ≠ shortCodeOf draw) :
    (s.ShortenHandler env draw r st).2.shortURLs.lookup c = st.shortURLs.lookup c ∧
    (∀ p, r.FormValue "url" ≠ "" → env.urlParse (r.FormValue "url") = .ok p →
      p.Scheme ≠ "" → p.Host ≠ "" →
      (s.ShortenHandler env draw r st).2.shortURLs.lookup (shortCodeOf draw)
        = some (r.FormValue "url")) := by
  constructor
  · by_cases hvalid : r.FormValue "url" ≠ "" ∧
        ∃ p, env.urlParse (r.FormValue "url") = .ok p ∧ p.Scheme ≠ "" ∧ p.Host ≠ ""
    · obtain ⟨hne, p, hp, hs, hh⟩ := hvalid
      obtain ⟨log, heq⟩ := ShortenHandler_valid s env draw r st p hne hp hs hh
      rw [heq]
      exact lookup_mapSet_ne _ _ _ _ hc
    · have hinv : r.FormValue "url" = "" ∨ (∃ e, env.urlParse (r.FormValue "url") = .error e) ∨
          (∃ p, env.urlParse (r.FormValue "url") = .ok p ∧ (p.Scheme = "" ∨ p.Host = "")) := by
        by_cases hne : r.FormValue "url" = ""
        · exact Or.inl hne
        · right
          cases hp : env.urlParse (r.FormValue "url") with
          | error e => exact Or.inl ⟨e, rfl⟩
          | ok p =>
            right
            refine ⟨p, rfl, ?_⟩
            by_contra hcon
            push_neg at hcon
            exact hvalid ⟨hne, p, hp, hcon.1, hcon.2⟩
      obtain ⟨msg, _, _, heq⟩ := ShortenHandler_invalid s env draw r st hinv
      rw [heq]
      rfl
  · intro p hne hp hs hh
    obtain ⟨log, heq⟩ := ShortenHandler_valid s env draw r st p hne hp hs hh
    rw [heq]
    exact lookup_mapSet_self _ _ _

/-- The frame property at the store of the counterexample and a draw whose code
differs from the stored one: the old entry is kept. -/
theorem shorten_frame_witness :
    (sampleServer.ShortenHandler sampleEnv 1 (shortenRequest "https://new.example/")
        ⟨[("AAAAAAAAAAA=", "https://old.example/")], []⟩).2.shortURLs.lookup "AAAAAAAAAAA="
      = (⟨[("AAAAAAAAAAA=", "https://old.example/")], []⟩ : ServerState).shortURLs.lookup
          "AAAAAAAAAAA=" ∧
    (∀ p, (shortenRequest "https://new.example/").FormValue "url" ≠ "" →
      sampleEnv.urlParse ((shortenRequest "https://new.example/").FormValue "url") = .ok p →
      p.Scheme ≠ "" → p.Host ≠ "" →
      (sampleServer.ShortenHandler sampleEnv 1 (shortenRequest "https://new.example/")
        ⟨[("AAAAAAAAAAA=", "https://old.example/")], []⟩).2.shortURLs.lookup (shortCodeOf 1)
        = some ((shortenRequest "https://new.example/").FormValue "url")) :=
  shorten_frame sampleServer sampleEnv 1 (shortenRequest "https://new.example/")
    ⟨[("AAAAAAAAAAA=", "https://old.example/")], []⟩ "AAAAAAAAAAA=" (by decide)

/-! ## Theorems: serialisation -/

theorem SetHeader_fields (env : Env) (w : ResponseWriter) (k v : String) :
    (w.SetHeader env k v).statusLines = w.statusLines ∧
    (w.SetHeader env k v).writes = w.writes ∧
    (w.SetHeader env k v).writeErr = w.writeErr := ⟨rfl, rfl, rfl⟩

theorem SetHeader_lookup (env : Env) (w : ResponseWriter) (k v : String) :
    (w.SetHeader env k v).header.lookup (env.canonicalKey k) = some [v] := by
  simp [ResponseWriter.SetHeader, List.lookup]

theorem header_lookup_filter_ne (h : Header) (k c : String) (hne : c ≠ k) :
    (h.filter (fun e => e.1 ≠ k)).lookup c = h.lookup c := by
  induction h with
  | nil => rfl
  | cons e rest ih =>
    obtain ⟨a, b⟩ := e
    simp only [ne_eq, decide_not] at ih ⊢
    by_cases hak : a = k
    · subst hak
      have hca : (c == a) = false := by simpa using hne
      simp [List.filter, List.lookup, hca, ih]
    · by_cases hca : c = a
      · subst hca
        simp [List.filter, hak, List.lookup]
      · have hca2 : (c == a) = false := by simpa using hca
        simp [List.filter, hak, List.lookup, hca2, ih]

theorem SetHeader_lookup_ne (env : Env) (w : ResponseWriter) (k v c : String)
    (hne : c ≠ env.canonicalKey k) :
    (w.SetHeader env k v).header.lookup c = w.header.lookup c := by
  have hck : (c == env.canonicalKey k) = false := by simpa using hne
  simp only [ResponseWriter.SetHeader, List.lookup, hck]
  exact header_lookup_filter_ne w.header _ c hne

theorem foldl_SetHeader_fields (env : Env) (l : List (String × String)) (w : ResponseWriter) :
    (l.foldl (fun w e => w.SetHeader env e.1 e.2) w).statusLines = w.statusLines ∧
    (l.foldl (fun w e => w.SetHeader env e.1 e.2) w).writes = w.writes ∧
    (l.foldl (fun w e => w.SetHeader env e.1 e.2) w).writeErr = w.writeErr := by
  induction l generalizing w with
  | nil => exact ⟨rfl, rfl, rfl⟩
  | cons e rest ih =>
    simp only [List.foldl]
    obtain ⟨h1, h2, h3⟩ := ih (w.SetHeader env e.1 e.2)
    exact ⟨h1, h2, h3⟩

theorem applyCustomHeaders_fields (env : Env) (w : ResponseWriter)
    (headers : Option (List (String × String))) :
    (applyCustomHeaders env w headers).statusLines = w.statusLines ∧
    (applyCustomHeaders env w headers).writes = w.writes ∧
    (applyCustomHeaders env w headers).writeErr = w.writeErr :=
  foldl_SetHeader_fields env _ w

/-- C10: for every failed response passed to `Write`, exactly one status line
is written, with the status code of the response and with the header
`X-Content-Type-Options: nosniff` in place; the body written is the JSON
encoding of the payload when the payload kind is json, and otherwise, the
payload being a string, exactly its bytes; the error of the body write (or of
the JSON encoding) is what `Write` returns. -/
theorem Write_failed_response (env : Env) (w : ResponseWriter) (r : Option Request)
    (resp : HttpResponse) (hfail : resp.isSuccessful = false) :
    (∃ hdr,
      (Write env w r resp).2.statusLines = w.statusLines ++ [(resp.statusCode, hdr)] ∧
      hdr.lookup (env.canonicalKey ContentTypeOptions) = some [ContentTypeOptionsNoSniff]) ∧
    (resp.payloadType = jsonType → ∀ bytes, env.jsonEncode resp.payload = .ok bytes →
      (Write env w r resp).2.writes = w.writes ++ [bytes] ∧
      (Write env w r resp).1 = .ok w.writeErr) ∧
    (resp.payloadType = jsonType → ∀ e, env.jsonEncode resp.payload = .error e →
      (Write env w r resp).2.writes = w.writes ∧
      (Write env w r resp).1 = .ok (some e)) ∧
    (resp.payloadType ≠ jsonType → ∀ t, resp.payload = some (.str t) →
      (Write env w r resp).2.writes = w.writes ++ [stringBytes t] ∧
      (Write env w r resp).1 = .ok w.writeErr) := by
  obtain ⟨hs, hw, he⟩ := applyCustomHeaders_fields env w resp.headers
  have hlook := SetHeader_lookup env
    ((applyCustomHeaders env w resp.headers).SetHeader env ContentTypeHeader resp.contentType)
    ContentTypeOptions ContentTypeOptionsNoSniff
  refine ⟨?_, ?_, ?_, ?_⟩
  · refine ⟨_, ?_, hlook⟩
    simp only [Write, hfail, if_true, writeError]
    by_cases hj : resp.payloadType = jsonType
    · simp only [hj, if_true, encodeTo]
      cases env.jsonEncode resp.payload <;>
        simp [ResponseWriter.WriteHeader, ResponseWriter.Write, ResponseWriter.SetHeader, hs]
    · simp only [hj, if_false]
      rcases hp : resp.payload with _ | v
      · simp [ResponseWriter.WriteHeader, ResponseWriter.SetHeader, hs]
      · cases v <;>
          simp [ResponseWriter.WriteHeader, ResponseWriter.Write, ResponseWriter.SetHeader, hs]
  · intro hj bytes hb
    simp [Write, hfail, writeError, hj, encodeTo, hb, ResponseWriter.WriteHeader,
      ResponseWriter.Write, ResponseWriter.SetHeader, hw, he]
  · intro hj e hb
    simp [Write, hfail, writeError, hj, encodeTo, hb, ResponseWriter.WriteHeader,
      ResponseWriter.SetHeader, hw]
  · intro hj t ht
    simp [Write, hfail, writeError, hj, ht, ResponseWriter.WriteHeader,
      ResponseWriter.Write, ResponseWriter.SetHeader, hw, he]

/-- The failed response `NotFound` with a message, written to a fresh writer. -/
theorem Write_failed_response_witness :
    (∃ hdr,
      (Write sampleEnv emptyWriter none
        { newErrorResponse 404 with payload := some (.str "Short URL not found - x") }
        ).2.statusLines = emptyWriter.statusLines ++ [((404 : Int), hdr)] ∧
      hdr.lookup (sampleEnv.canonicalKey ContentTypeOptions)
        = some [ContentTypeOptionsNoSniff]) ∧
    (emptyType = jsonType → ∀ bytes,
      sampleEnv.jsonEncode (some (.str "Short URL not found - x")) = .ok bytes →
      (Write sampleEnv emptyWriter none
        { newErrorResponse 404 with payload := some (.str "Short URL not found - x") }
        ).2.writes = emptyWriter.writes ++ [bytes] ∧
      (Write sampleEnv emptyWriter none
        { newErrorResponse 404 with payload := some (.str "Short URL not found - x") }
        ).1 = .ok emptyWriter.writeErr) ∧
    (emptyType = jsonType → ∀ e,
      sampleEnv.jsonEncode (some (.str "Short URL not found - x")) = .error e →
      (Write sampleEnv emptyWriter none
        { newErrorResponse 404 with payload := some (.str "Short URL not found - x") }
        ).2.writes = emptyWriter.writes ∧
      (Write sampleEnv emptyWriter none
        { newErrorResponse 404 with payload := some (.str "Short URL not found - x") }
        ).1 = .ok (some e)) ∧
    (emptyType ≠ jsonType → ∀ t,
      some (GoValue.str "Short URL not found - x") = some (.str t) →
      (Write sampleEnv emptyWriter none
        { newErrorResponse 404 with payload := some (.str "Short URL not found - x") }
        ).2.writes = emptyWriter.writes ++ [stringBytes t] ∧
      (Write sampleEnv emptyWriter none
        { newErrorResponse 404 with payload := some (.str "Short URL not found - x") }
        ).1 = .ok emptyWriter.writeErr) :=
  Write_failed_response sampleEnv emptyWriter none
    { newErrorResponse 404 with payload := some (.str "Short URL not found - x") } rfl

/-- A failed response whose payload is not a string and whose kind is not json
makes `writeError` panic at the type assertion, after the status line. -/
theorem Write_failed_response_ill_formed (env : Env) (w : ResponseWriter) (r : Option Request)
    (resp : HttpResponse) (hfail : resp.isSuccessful = false)
    (hkind : resp.payloadType ≠ jsonType) (hpayload : ∀ t, resp.payload ≠ some (.str t)) :
    (Write env w r resp).1 = .error .typeAssertion := by
  have hW : Write env w r resp = writeError env
      ((applyCustomHeaders env w resp.headers).SetHeader env ContentTypeHeader resp.contentType)
      resp := by
    simp [Write, hfail]
  rw [hW]
  unfold writeError
  rw [if_neg hkind]
  rcases hp : resp.payload with _ | v
  · rfl
  · cases v with
    | str t => exact absurd hp (hpayload t)
    | strMap m => rfl
    | other n => rfl

/-- The serialisation of a successful response with conditional caching, for a
present request, given the bytes of its payload. -/
theorem writeEtagPayload_some (env : Env) (w : ResponseWriter) (req : Request)
    (resp : HttpResponse) (bytes : List Nat)
    (hbytes : (resp.payloadType = textType ∧
                ∃ t, resp.payload = some (.str t) ∧ bytes = stringBytes t) ∨
              (resp.payloadType = jsonType ∧ env.etagMarshal resp.payload = .ok bytes)) :
    writeEtagPayload env w (some req) resp =
      if env.isFresh req.header
          ((w.SetHeader env headersETag (etagOf env bytes)).SetHeader env headersCacheControl
            "max-age=1209600, private, no-cache").header then
        (.ok w.writeErr,
          ((((w.SetHeader env headersETag (etagOf env bytes)).SetHeader env headersCacheControl
            "max-age=1209600, private, no-cache").WriteHeader StatusNotModified).Write []).2)
      else
        (.ok w.writeErr,
          ((((w.SetHeader env headersETag (etagOf env bytes)).SetHeader env headersCacheControl
            "max-age=1209600, private, no-cache").WriteHeader resp.statusCode).Write bytes).2) := by
  rcases hbytes with ⟨hk, t, hp, hb⟩ | ⟨hk, hm⟩
  · subst hb
    simp only [writeEtagPayload, hk, hp, handleEtag, generateEtag, etagOf]
    split <;> rfl
  · simp only [writeEtagPayload, hk, hm, handleEtag, generateEtag, etagOf]
    split <;> rfl

/-- The effect of `writeEtagPayload` on the writer it is given. -/
theorem writeEtagPayload_effect (env : Env) (w : ResponseWriter) (req : Request)
    (resp : HttpResponse) (bytes : List Nat)
    (hbytes : (resp.payloadType = textType ∧
                ∃ t, resp.payload = some (.str t) ∧ bytes = stringBytes t) ∨
              (resp.payloadType = jsonType ∧ env.etagMarshal resp.payload = .ok bytes)) :
    ∃ w2, writeEtagPayload env w (some req) resp = (.ok w.writeErr, w2) ∧
      w2.header = ((w.SetHeader env headersETag (etagOf env bytes)).SetHeader env
            headersCacheControl "max-age=1209600, private, no-cache").header ∧
      (env.isFresh req.header w2.header = true →
        w2.statusLines = w.statusLines ++ [(304, w2.header)] ∧
        w2.writes = w.writes ++ [[]]) ∧
      (env.isFresh req.header w2.header = false →
        w2.statusLines = w.statusLines ++ [(resp.statusCode, w2.header)] ∧
        w2.writes = w.writes ++ [bytes]) := by
  rw [writeEtagPayload_some env w req resp bytes hbytes]
  by_cases hf : env.isFresh req.header
      ((w.SetHeader env headersETag (etagOf env bytes)).SetHeader env
            headersCacheControl "max-age=1209600, private, no-cache").header = true
  · rw [if_pos hf]
    refine ⟨_, rfl, rfl, fun _ => ⟨rfl, rfl⟩, fun hcon => ?_⟩
    have hcon2 : env.isFresh req.header
      ((w.SetHeader env headersETag (etagOf env bytes)).SetHeader env
            headersCacheControl "max-age=1209600, private, no-cache").header = false := hcon
    rw [hf] at hcon2
    exact absurd hcon2 (by decide)
  · rw [if_neg hf]
    refine ⟨_, rfl, rfl, fun hcon => ?_, fun _ => ⟨rfl, rfl⟩⟩
    exact absurd hcon hf

/-- C9: for every successful response that opted into conditional caching and
carries a text payload or a JSON payload with serialised bytes `bytes`, and
every request, `Write` sets the ETag header to `W/"hex"`, hex being the
hexadecimal SHA-1 digest of `bytes`, and then Cache-Control to
`max-age=1209600, private, no-cache`; when the request headers are fresh against
the resulting response headers it writes the status line 304 and an empty body
and nothing else, and otherwise it writes the status code of the response and
exactly `bytes`. -/
theorem Write_conditional_cache (env : Env) (w : ResponseWriter) (req : Request)
    (resp : HttpResponse) (bytes : List Nat)
    (hsucc : resp.isSuccessful = true) (hetag : resp.etag = true)
    (hbytes : (resp.payloadType = textType ∧
                ∃ t, resp.payload = some (.str t) ∧ bytes = stringBytes t) ∨
              (resp.payloadType = jsonType ∧ env.etagMarshal resp.payload = .ok bytes)) :
    ∃ w2, Write env w (some req) resp = (.ok w.writeErr, w2) ∧
      w2.header =
        ((((applyCustomHeaders env w resp.headers).SetHeader env ContentTypeHeader
            resp.contentType).SetHeader env headersETag (etagOf env bytes)).SetHeader env
            headersCacheControl "max-age=1209600, private, no-cache").header ∧
      w2.header.lookup (env.canonicalKey headersCacheControl)
        = some ["max-age=1209600, private, no-cache"] ∧
      (env.canonicalKey headersETag ≠ env.canonicalKey headersCacheControl →
        w2.header.lookup (env.canonicalKey headersETag)
          = some ["W/\"" ++ hexEncodeToString (env.sha1 bytes) ++ "\""]) ∧
      (env.isFresh req.header w2.header = true →
        w2.statusLines = w.statusLines ++ [(304, w2.header)] ∧
        w2.writes = w.writes ++ [[]]) ∧
      (env.isFresh req.header w2.header = false →
        w2.statusLines = w.statusLines ++ [(resp.statusCode, w2.header)] ∧
        w2.writes = w.writes ++ [bytes]) := by
  obtain ⟨hs, hw, he⟩ := applyCustomHeaders_fields env w resp.headers
  have hnr : resp.payloadType ≠ redirectType := by
    rcases hbytes with ⟨hk, _⟩ | ⟨hk, _⟩ <;> simp [hk]
  have hW : Write env w (some req) resp =
      writeEtagPayload env
        ((applyCustomHeaders env w resp.headers).SetHeader env ContentTypeHeader
          resp.contentType) (some req) resp := by
    simp [Write, hsucc, writePayload, hnr, hetag]
  obtain ⟨w2, h1, h2, h3, h4⟩ := writeEtagPayload_effect env
    ((applyCustomHeaders env w resp.headers).SetHeader env ContentTypeHeader resp.contentType)
    req resp bytes hbytes
  have he1 : ((applyCustomHeaders env w resp.headers).SetHeader env ContentTypeHeader
      resp.contentType).writeErr = w.writeErr := he
  have hs1 : ((applyCustomHeaders env w resp.headers).SetHeader env ContentTypeHeader
      resp.contentType).statusLines = w.statusLines := hs
  have hw1 : ((applyCustomHeaders env w resp.headers).SetHeader env ContentTypeHeader
      resp.contentType).writes = w.writes := hw
  rw [he1] at h1
  rw [hs1, hw1] at h3 h4
  refine ⟨w2, hW.trans h1, h2, ?_, ?_, h3, h4⟩
  · rw [h2]
    exact SetHeader_lookup env _ _ _
  · intro hne
    rw [h2, SetHeader_lookup_ne env _ _ _ _ hne]
    exact SetHeader_lookup env _ _ _

/-- The cached text response `Created().Etag().WithText("hello")` written for a
request without conditional headers. -/
theorem Write_conditional_cache_witness :
    ∃ w2, Write sampleEnv emptyWriter (some (redirectRequest "x")) cachedText
        = (.ok emptyWriter.writeErr, w2) ∧
      w2.header =
        ((((applyCustomHeaders sampleEnv emptyWriter cachedText.headers).SetHeader sampleEnv
            ContentTypeHeader cachedText.contentType).SetHeader sampleEnv headersETag
            (etagOf sampleEnv (stringBytes "hello"))).SetHeader sampleEnv
            headersCacheControl "max-age=1209600, private, no-cache").header ∧
      w2.header.lookup (sampleEnv.canonicalKey headersCacheControl)
        = some ["max-age=1209600, private, no-cache"] ∧
      (sampleEnv.canonicalKey headersETag ≠ sampleEnv.canonicalKey headersCacheControl →
        w2.header.lookup (sampleEnv.canonicalKey headersETag)
          = some ["W/\"" ++ hexEncodeToString (sampleEnv.sha1 (stringBytes "hello")) ++ "\""]) ∧
      (sampleEnv.isFresh (redirectRequest "x").header w2.header = true →
        w2.statusLines = emptyWriter.statusLines ++ [(304, w2.header)] ∧
        w2.writes = emptyWriter.writes ++ [[]]) ∧
      (sampleEnv.isFresh (redirectRequest "x").header w2.header = false →
        w2.statusLines = emptyWriter.statusLines ++ [(cachedText.statusCode, w2.header)] ∧
        w2.writes = emptyWriter.writes ++ [stringBytes "hello"]) :=
  Write_conditional_cache sampleEnv emptyWriter (redirectRequest "x") cachedText
    (stringBytes "hello") rfl rfl (Or.inl ⟨rfl, "hello", rfl, rfl⟩)

/-- Without a request (`r == nil`) `handleEtag` sets no header and answers
`false`: the status code and the body are written, the headers stay as they
were. -/
theorem writeEtagPayload_nil_request (env : Env) (w : ResponseWriter) (resp : HttpResponse)
    (t : String) (hk : resp.payloadType = textType) (hp : resp.payload = some (.str t)) :
    writeEtagPayload env w none resp =
      (.ok w.writeErr, ((w.WriteHeader resp.statusCode).Write (stringBytes t)).2) := by
  simp only [writeEtagPayload, hk, hp, handleEtag]
  rfl

/-- When the key-sorted serialisation of a JSON payload fails, `writeEtagPayload`
returns that error and leaves the writer untouched. -/
theorem writeEtagPayload_marshal_error (env : Env) (w : ResponseWriter) (r : Option Request)
    (resp : HttpResponse) (e : GoError) (hk : resp.payloadType = jsonType)
    (hm : env.etagMarshal resp.payload = .error e) :
    writeEtagPayload env w r resp = (.ok (some e), w) := by
  simp only [writeEtagPayload, hk, hm]

/-! ## Theorems: the dispatch wrapper -/

/-- The recovery branch of the closure deferred by `Router.handle` ends in the
panic of `logger.Panic`: the 500 response after it is never written. -/
theorem handleDeferred_recovery_panics (env : Env) (handler : HttpHandler) (r : Request)
    (p : PanicVal) (wd : World) :
    Router.handleDeferred env handler r (some p) wd =
      (.error (.logged ["panic in router handler", env.debugStack]),
       { wd with st := wd.st.emit .Panic false ["panic in router handler", env.debugStack] }) :=
  rfl

/-- C4 (what the code does): when the route handler panics, the transport-level
handler built by `Router.handle` and `Router.Wrap` does not intercept the panic.
The deferred closure has called `recover()` before it calls the handler, so the
panic leaves the transport-level handler, and the response writer is as it was:
no status line and no body is written. -/
theorem HandleFunc_panic_propagates (env : Env) (routeHandler : RouteHandlerFunc)
    (w : ResponseWriter) (r : Request) (st st2 : ServerState) (p : PanicVal)
    (hpanic : routeHandler r
        ((st.emit .Debug false ["brej", r.path]).emit .Debug false
          ["Router.HandleFunc: ", r.path]) = (.error p, st2)) :
    Router.HandleFunc env routeHandler w r st = (.error p, ⟨w, st2⟩) := by
  simp only [Router.HandleFunc, Router.handle, withDefer, Router.handleDeferred, Router.Wrap,
    hpanic]

/-- The defective handler `panickingHandler` behind the dispatch wrapper: the
panic comes out, the writer stays empty. -/
theorem HandleFunc_panic_propagates_witness :
    Router.HandleFunc sampleEnv panickingHandler emptyWriter (redirectRequest "x") emptyState
      = (.error (.err ErrNilJSONPayload),
         ⟨emptyWriter,
          (emptyState.emit .Debug false ["brej", (redirectRequest "x").path]).emit .Debug false
            ["Router.HandleFunc: ", (redirectRequest "x").path]⟩) :=
  HandleFunc_panic_propagates sampleEnv panickingHandler emptyWriter (redirectRequest "x")
    emptyState _ (.err ErrNilJSONPayload) rfl

/-- C14 as stated fails: for a failed response without payload `logResponse`
returns at once, so no entry is logged, not one. -/
theorem logResponse_nil_payload_counterexample :
    ¬ (∃ e : LogEntry,
        (Router.logResponse (redirectRequest "x") (newErrorResponse 400) emptyState).log
          = emptyState.log ++ [e] ∧
        e.args = ["error response did not hold the expected payload"]) := by
  simp [Router.logResponse, HttpResponse.Payload, newErrorResponse, emptyState]

/-- C14 (amended): `Router.logResponse` logs nothing for a response without
payload; for a payload that is not a string it logs exactly one entry, at Error
severity, with the generic message `error response did not hold the expected
payload`; for a string payload it logs exactly one entry carrying that string,
at Error severity when the status code is at least 500 and at Warn severity
otherwise. The store is never touched. -/
theorem logResponse_entries (r : Request) (resp : HttpResponse) (st : ServerState) :
    (resp.payload = none → Router.logResponse r resp st = st) ∧
    (∀ v, resp.payload = some v → (∀ t, v ≠ .str t) →
      (Router.logResponse r resp st).log
        = st.log ++ [⟨.Error, true, ["error response did not hold the expected payload"]⟩]) ∧
    (∀ t, resp.payload = some (.str t) → 500 ≤ resp.statusCode →
      (Router.logResponse r resp st).log = st.log ++ [⟨.Error, true, [t]⟩]) ∧
    (∀ t, resp.payload = some (.str t) → resp.statusCode < 500 →
      (Router.logResponse r resp st).log = st.log ++ [⟨.Warn, true, [t]⟩]) ∧
    (Router.logResponse r resp st).shortURLs = st.shortURLs := by
  refine ⟨?_, ?_, ?_, ?_, ?_⟩
  · intro h
    simp [Router.logResponse, HttpResponse.Payload, h]
  · intro v h hv
    cases v with
    | str t => exact absurd rfl (hv t)
    | strMap m => simp [Router.logResponse, HttpResponse.Payload, h, ServerState.emit]
    | other n => simp [Router.logResponse, HttpResponse.Payload, h, ServerState.emit]
  · intro t h hs
    simp [Router.logResponse, HttpResponse.Payload, HttpResponse.StatusCode, h, hs,
      ServerState.emit]
  · intro t h hs
    have hs2 : ¬ (500 ≤ resp.statusCode) := by omega
    simp [Router.logResponse, HttpResponse.Payload, HttpResponse.StatusCode, h, hs2,
      ServerState.emit]
  · rcases hp : resp.payload with _ | v
    · simp [Router.logResponse, HttpResponse.Payload, hp]
    · cases v with
      | str t =>
        by_cases hs : 500 ≤ resp.statusCode <;>
          simp [Router.logResponse, HttpResponse.Payload, HttpResponse.StatusCode, hp, hs,
            ServerState.emit]
      | strMap m => simp [Router.logResponse, HttpResponse.Payload, hp, ServerState.emit]
      | other n => simp [Router.logResponse, HttpResponse.Payload, hp, ServerState.emit]

/-- The log entry for a 404 response with a message: one entry at Warn
severity carrying the message. -/
theorem logResponse_entries_witness :
    ∀ t, (some (GoValue.str "Short URL not found - x") : Option GoValue) = some (.str t) →
      (404 : Int) < 500 →
      (Router.logResponse (redirectRequest "x")
        { newErrorResponse 404 with payload := some (.str "Short URL not found - x") }
        emptyState).log = emptyState.log ++ [⟨.Warn, true, [t]⟩] :=
  (logResponse_entries (redirectRequest "x")
    { newErrorResponse 404 with payload := some (.str "Short URL not found - x") }
    emptyState).2.2.2.1

/-! ## Theorems: the generated codes -/

theorem base64Index_base64Char : ∀ i, i < 64 → base64Index (base64Char i) = i := by
  decide

theorem base64Char_mem : ∀ i, i < 64 → base64Char i ∈ encodeStd := by
  decide

theorem base64Char_inj (i j : Nat) (hi : i < 64) (hj : j < 64)
    (h : base64Char i = base64Char j) : i = j := by
  have hcong := congrArg base64Index h
  rwa [base64Index_base64Char i hi, base64Index_base64Char j hj] at hcong

/-- The twelve characters of the encoding of eight bytes. -/
theorem base64Chars_eight (a b c d e f g h : Nat) :
    base64Chars [a, b, c, d, e, f, g, h] =
      [base64Char ((a * 65536 + b * 256 + c) / 262144 % 64),
       base64Char ((a * 65536 + b * 256 + c) / 4096 % 64),
       base64Char ((a * 65536 + b * 256 + c) / 64 % 64),
       base64Char ((a * 65536 + b * 256 + c) % 64),
       base64Char ((d * 65536 + e * 256 + f) / 262144 % 64),
       base64Char ((d * 65536 + e * 256 + f) / 4096 % 64),
       base64Char ((d * 65536 + e * 256 + f) / 64 % 64),
       base64Char ((d * 65536 + e * 256 + f) % 64),
       base64Char ((g * 65536 + h * 256) / 262144 % 64),
       base64Char ((g * 65536 + h * 256) / 4096 % 64),
       base64Char ((g * 65536 + h * 256) / 64 % 64),
       '='] := rfl

/-- Three bytes are determined by their four sextets. -/
theorem sextets_inj_three (a b c x y z : Nat) (ha : a < 256) (hb : b < 256) (hc : c < 256)
    (hx : x < 256) (hy : y < 256) (hz : z < 256)
    (h0 : (a * 65536 + b * 256 + c) / 262144 % 64 = (x * 65536 + y * 256 + z) / 262144 % 64)
    (h1 : (a * 65536 + b * 256 + c) / 4096 % 64 = (x * 65536 + y * 256 + z) / 4096 % 64)
    (h2 : (a * 65536 + b * 256 + c) / 64 % 64 = (x * 65536 + y * 256 + z) / 64 % 64)
    (h3 : (a * 65536 + b * 256 + c) % 64 = (x * 65536 + y * 256 + z) % 64) :
    a = x ∧ b = y ∧ c = z := by
  omega

/-- Two trailing bytes are determined by their three sextets. -/
theorem sextets_inj_two (a b x y : Nat) (ha : a < 256) (hb : b < 256)
    (hx : x < 256) (hy : y < 256)
    (h0 : (a * 65536 + b * 256) / 262144 % 64 = (x * 65536 + y * 256) / 262144 % 64)
    (h1 : (a * 65536 + b * 256) / 4096 % 64 = (x * 65536 + y * 256) / 4096 % 64)
    (h2 : (a * 65536 + b * 256) / 64 % 64 = (x * 65536 + y * 256) / 64 % 64) :
    a = x ∧ b = y := by
  omega

/-- The base64 encoding is injective on sequences of eight bytes. -/
theorem base64Chars_inj_eight (a b c d e f g h x y z u v w p q : Nat)
    (ha : a < 256) (hb : b < 256) (hc : c < 256) (hd : d < 256) (he : e < 256)
    (hf : f < 256) (hg : g < 256) (hh : h < 256) (hx : x < 256) (hy : y < 256)
    (hz : z < 256) (hu : u < 256) (hv : v < 256) (hw : w < 256) (hp : p < 256)
    (hq : q < 256)
    (heq : base64Chars [a, b, c, d, e, f, g, h] = base64Chars [x, y, z, u, v, w, p, q]) :
    [a, b, c, d, e, f, g, h] = [x, y, z, u, v, w, p, q] := by
  rw [base64Chars_eight, base64Chars_eight] at heq
  simp only [List.cons.injEq, and_true] at heq
  obtain ⟨e0, e1, e2, e3, e4, e5, e6, e7, e8, e9, e10⟩ := heq
  have m : ∀ n : Nat, n % 64 < 64 := fun n => Nat.mod_lt n (by decide)
  have t1 := sextets_inj_three a b c x y z ha hb hc hx hy hz
    (base64Char_inj _ _ (m _) (m _) e0) (base64Char_inj _ _ (m _) (m _) e1)
    (base64Char_inj _ _ (m _) (m _) e2) (base64Char_inj _ _ (m _) (m _) e3)
  have t2 := sextets_inj_three d e f u v w hd he hf hu hv hw
    (base64Char_inj _ _ (m _) (m _) e4) (base64Char_inj _ _ (m _) (m _) e5)
    (base64Char_inj _ _ (m _) (m _) e6) (base64Char_inj _ _ (m _) (m _) e7)
  have t3 := sextets_inj_two g h p q hg hh hp hq
    (base64Char_inj _ _ (m _) (m _) e8) (base64Char_inj _ _ (m _) (m _) e9)
    (base64Char_inj _ _ (m _) (m _) e10)
  obtain ⟨r1, r2, r3⟩ := t1
  obtain ⟨r4, r5, r6⟩ := t2
  obtain ⟨r7, r8⟩ := t3
  subst r1 r2 r3 r4 r5 r6 r7 r8
  rfl

/-- The big-endian byte encoding is injective on 64-bit values. -/
theorem Int63ToByteArray_inj (v w : Nat) (hv : v < 2 ^ 64) (hw : w < 2 ^ 64)
    (h : Int63ToByteArray v = Int63ToByteArray w) : v = w := by
  simp only [Int63ToByteArray, List.cons.injEq, and_true] at h
  norm_num at h hv hw
  omega

/-- The code is an injective function of the 64-bit draw. -/
theorem shortCodeOf_inj (d1 d2 : Nat) (h1 : d1 < 2 ^ 64) (h2 : d2 < 2 ^ 64)
    (h : shortCodeOf d1 = shortCodeOf d2) : d1 = d2 := by
  have hchars : base64Chars (Int63ToByteArray d1) = base64Chars (Int63ToByteArray d2) := by
    exact congrArg String.data h
  have m : ∀ n : Nat, n % 256 < 256 := fun n => Nat.mod_lt n (by decide)
  apply Int63ToByteArray_inj d1 d2 h1 h2
  exact base64Chars_inj_eight _ _ _ _ _ _ _ _ _ _ _ _ _ _ _ _
    (m _) (m _) (m _) (m _) (m _) (m _) (m _) (m _)
    (m _) (m _) (m _) (m _) (m _) (m _) (m _) (m _) hchars

/-- The characters of the code of a draw. -/
theorem shortCodeOf_toList (draw : Nat) :
    ∃ a b c d e f g h : Nat, (shortCodeOf draw).toList =
      [base64Char ((a * 65536 + b * 256 + c) / 262144 % 64),
       base64Char ((a * 65536 + b * 256 + c) / 4096 % 64),
       base64Char ((a * 65536 + b * 256 + c) / 64 % 64),
       base64Char ((a * 65536 + b * 256 + c) % 64),
       base64Char ((d * 65536 + e * 256 + f) / 262144 % 64),
       base64Char ((d * 65536 + e * 256 + f) / 4096 % 64),
       base64Char ((d * 65536 + e * 256 + f) / 64 % 64),
       base64Char ((d * 65536 + e * 256 + f) % 64),
       base64Char ((g * 65536 + h * 256) / 262144 % 64),
       base64Char ((g * 65536 + h * 256) / 4096 % 64),
       base64Char ((g * 65536 + h * 256) / 64 % 64),
       '='] :=
  ⟨_, _, _, _, _, _, _, _, base64Chars_eight _ _ _ _ _ _ _ _⟩

/-- C12: the code `GenerateShortURL` returns depends on the draw alone (its
eight big-endian bytes in standard base64), and that function is injective on
64-bit draws. Hence pairwise distinct draws give pairwise distinct codes, and
two creates of the same long URL with different draws store it under two
distinct codes. -/
theorem generated_codes_distinct (s : UrlShortenerServer) (env : Env) (draws : List Nat)
    (hbound : ∀ d ∈ draws, d < 2 ^ 64) (hnodup : draws.Nodup) :
    (∀ d st, (s.GenerateShortURL d st).1 = EncodeToString (Int63ToByteArray d)) ∧
    (∀ d1 d2, d1 < 2 ^ 64 → d2 < 2 ^ 64 →
      EncodeToString (Int63ToByteArray d1) = EncodeToString (Int63ToByteArray d2) → d1 = d2) ∧
    (draws.map (fun d => EncodeToString (Int63ToByteArray d))).Nodup ∧
    (∀ (r : Request) (st : ServerState) (p : URL) (d1 d2 : Nat),
      r.FormValue "url" ≠ "" → env.urlParse (r.FormValue "url") = .ok p →
      p.Scheme ≠ "" → p.Host ≠ "" → d1 ∈ draws → d2 ∈ draws → d1 ≠ d2 →
      ∃ created1 st1 created2 st2,
        s.ShortenHandler env d1 r st = (.ok (some created1), st1) ∧
        s.ShortenHandler env d2 r st1 = (.ok (some created2), st2) ∧
        shortCodeOf d1 ≠ shortCodeOf d2 ∧
        st2.shortURLs.lookup (shortCodeOf d1) = some (r.FormValue "url") ∧
        st2.shortURLs.lookup (shortCodeOf d2) = some (r.FormValue "url")) := by
  refine ⟨fun _ _ => rfl, fun d1 d2 h1 h2 h => shortCodeOf_inj d1 d2 h1 h2 h, ?_, ?_⟩
  · exact List.Nodup.map_on
      (fun x hx y hy h => shortCodeOf_inj x y (hbound x hx) (hbound y hy) h) hnodup
  · intro r st p d1 d2 hne hp hs hh hd1 hd2 hd
    obtain ⟨log1, e1⟩ := ShortenHandler_valid s env d1 r st p hne hp hs hh
    obtain ⟨log2, e2⟩ := ShortenHandler_valid s env d2 r
      { shortURLs := mapSet st.shortURLs (shortCodeOf d1) (r.FormValue "url"), log := log1 }
      p hne hp hs hh
    have hcodes : shortCodeOf d1 ≠ shortCodeOf d2 :=
      fun h => hd (shortCodeOf_inj d1 d2 (hbound d1 hd1) (hbound d2 hd2) h)
    refine ⟨_, _, _, _, e1, e2, hcodes, ?_, ?_⟩
    · show (mapSet (mapSet st.shortURLs (shortCodeOf d1) (r.FormValue "url"))
        (shortCodeOf d2) (r.FormValue "url")).lookup (shortCodeOf d1) = _
      rw [lookup_mapSet_ne _ _ _ _ hcodes]
      exact lookup_mapSet_self _ _ _
    · exact lookup_mapSet_self _ _ _

/-- The distinctness of the codes at the three draws 0, 1 and the all-ones
value. -/
theorem generated_codes_distinct_witness :
    (∀ d st, (sampleServer.GenerateShortURL d st).1 = EncodeToString (Int63ToByteArray d)) ∧
    (∀ d1 d2, d1 < 2 ^ 64 → d2 < 2 ^ 64 →
      EncodeToString (Int63ToByteArray d1) = EncodeToString (Int63ToByteArray d2) → d1 = d2) ∧
    ([0, 1, 2 ^ 64 - 1].map (fun d => EncodeToString (Int63ToByteArray d))).Nodup ∧
    (∀ (r : Request) (st : ServerState) (p : URL) (d1 d2 : Nat),
      r.FormValue "url" ≠ "" → sampleEnv.urlParse (r.FormValue "url") = .ok p →
      p.Scheme ≠ "" → p.Host ≠ "" → d1 ∈ [0, 1, 2 ^ 64 - 1] → d2 ∈ [0, 1, 2 ^ 64 - 1] →
      d1 ≠ d2 →
      ∃ created1 st1 created2 st2,
        sampleServer.ShortenHandler sampleEnv d1 r st = (.ok (some created1), st1) ∧
        sampleServer.ShortenHandler sampleEnv d2 r st1 = (.ok (some created2), st2) ∧
        shortCodeOf d1 ≠ shortCodeOf d2 ∧
        st2.shortURLs.lookup (shortCodeOf d1) = some (r.FormValue "url") ∧
        st2.shortURLs.lookup (shortCodeOf d2) = some (r.FormValue "url")) :=
  generated_codes_distinct sampleServer sampleEnv [0, 1, 2 ^ 64 - 1] (by decide) (by decide)

/-- C15: every code `GenerateShortURL` produces has exactly 12 characters, the
last one is the padding character `=` and the first 11 are characters of the
standard base64 alphabet; the code of the all-ones draw is `//////////8=`, which
contains the path separator and so is not a single path segment, the only thing
the route variable `shortURL` matches. -/
theorem short_code_shape (s : UrlShortenerServer) (draw : Nat) (st : ServerState) :
    (s.GenerateShortURL draw st).1.length = 12 ∧
    (s.GenerateShortURL draw st).1.toList.getLast? = some '=' ∧
    (∀ c ∈ (s.GenerateShortURL draw st).1.toList.take 11, c ∈ encodeStd) ∧
    (s.GenerateShortURL (2 ^ 64 - 1) st).1 = "//////////8=" ∧
    '/' ∈ (s.GenerateShortURL (2 ^ 64 - 1) st).1.toList ∧
    isPathSegment (s.GenerateShortURL (2 ^ 64 - 1) st).1 = false := by
  have hgen : (s.GenerateShortURL draw st).1 = shortCodeOf draw := rfl
  have hall : (s.GenerateShortURL (2 ^ 64 - 1) st).1 = "//////////8=" := by
    show shortCodeOf (2 ^ 64 - 1) = "//////////8="
    decide
  obtain ⟨a, b, c, d, e, f, g, h, hl⟩ := shortCodeOf_toList draw
  have m : ∀ n : Nat, base64Char (n % 64) ∈ encodeStd :=
    fun n => base64Char_mem _ (Nat.mod_lt n (by decide))
  refine ⟨?_, ?_, ?_, hall, ?_, ?_⟩
  · have hlen : (shortCodeOf draw).length = (shortCodeOf draw).toList.length := rfl
    rw [hgen, hlen, hl]
    rfl
  · rw [hgen, hl]
    rfl
  · rw [hgen, hl]
    intro x hx
    simp only [List.take, List.mem_cons, List.mem_singleton, List.not_mem_nil, or_false] at hx
    rcases hx with hx | hx | hx | hx | hx | hx | hx | hx | hx | hx | hx <;> subst hx <;>
      exact m _
  · rw [hall]
    decide
  · rw [hall]
    decide

/-! ## Theorems: the caller headers and the Content-Type header -/

theorem keeps_start (c : String) (val : Option (List String)) (w0 w : ResponseWriter)
    (hs : w.statusLines = w0.statusLines) (h : HasEntry c val w.header) :
    KeepsEntry c val w0 w :=
  ⟨h, [], by simp [hs], by simp⟩

theorem keeps_SetHeader (env : Env) (c : String) (val : Option (List String))
    (w0 w : ResponseWriter) (k v : String) (hk : c ≠ env.canonicalKey k)
    (h : KeepsEntry c val w0 w) :
    KeepsEntry c val w0 (w.SetHeader env k v) := by
  obtain ⟨hh, added, hs, ha⟩ := h
  refine ⟨?_, added, hs, ha⟩
  unfold HasEntry at hh ⊢
  rw [SetHeader_lookup_ne env w k v c hk]
  exact hh

theorem keeps_WriteHeader (c : String) (val : Option (List String)) (w0 w : ResponseWriter)
    (code : Int) (h : KeepsEntry c val w0 w) :
    KeepsEntry c val w0 (w.WriteHeader code) := by
  obtain ⟨hh, added, hs, ha⟩ := h
  refine ⟨hh, added ++ [(code, w.header)], ?_, ?_⟩
  · simp [ResponseWriter.WriteHeader, hs]
  · intro e he
    rcases List.mem_append.mp he with he | he
    · exact ha e he
    · rw [List.mem_singleton.mp he]
      exact hh

theorem keeps_Write (c : String) (val : Option (List String)) (w0 w : ResponseWriter)
    (b : List Nat) (h : KeepsEntry c val w0 w) :
    KeepsEntry c val w0 (w.Write b).2 := h

theorem keeps_encodeTo (c : String) (val : Option (List String)) (w0 w : ResponseWriter)
    (enc : Option GoValue → Except GoError (List Nat)) (v : Option GoValue)
    (h : KeepsEntry c val w0 w) :
    KeepsEntry c val w0 (encodeTo enc w v).2 := by
  unfold encodeTo
  cases enc v with
  | error e => exact h
  | ok bytes => exact keeps_Write c val w0 w bytes h

theorem keeps_handleEtag (env : Env) (c : String) (val : Option (List String))
    (w0 w : ResponseWriter) (r : Option Request) (res : List Nat)
    (hE : c ≠ env.canonicalKey headersETag) (hC : c ≠ env.canonicalKey headersCacheControl)
    (h : KeepsEntry c val w0 w) :
    KeepsEntry c val w0 (handleEtag env w r res).2 := by
  cases r with
  | none => exact h
  | some req =>
    have h2 := keeps_SetHeader env c val w0 _ headersCacheControl
      "max-age=1209600, private, no-cache" hC
      (keeps_SetHeader env c val w0 w headersETag (etagOf env res) hE h)
    simp only [handleEtag, generateEtag]
    split
    · exact keeps_Write c val w0 _ [] (keeps_WriteHeader c val w0 _ StatusNotModified h2)
    · exact h2

theorem keeps_etagBody (env : Env) (c : String) (val : Option (List String))
    (w0 w : ResponseWriter) (r : Option Request) (res : List Nat) (code : Int)
    (hE : c ≠ env.canonicalKey headersETag) (hC : c ≠ env.canonicalKey headersCacheControl)
    (h : KeepsEntry c val w0 w) :
    KeepsEntry c val w0
      (if (handleEtag env w r res).1.1 then
        ((Except.ok (handleEtag env w r res).1.2 : Except PanicVal (Option GoError)),
          (handleEtag env w r res).2)
       else
        (Except.ok (((handleEtag env w r res).2.WriteHeader code).Write res).1,
          (((handleEtag env w r res).2.WriteHeader code).Write res).2)).2 := by
  have hk := keeps_handleEtag env c val w0 w r res hE hC h
  split
  · exact hk
  · exact keeps_Write c val w0 _ res (keeps_WriteHeader c val w0 _ code hk)

theorem keeps_writeEtagPayload (env : Env) (c : String) (val : Option (List String))
    (w0 w : ResponseWriter) (r : Option Request) (resp : HttpResponse)
    (hE : c ≠ env.canonicalKey headersETag) (hC : c ≠ env.canonicalKey headersCacheControl)
    (h : KeepsEntry c val w0 w) :
    KeepsEntry c val w0 (writeEtagPayload env w r resp).2 := by
  unfold writeEtagPayload
  split
  · split
    · exact keeps_etagBody env c val w0 w r _ _ hE hC h
    · exact h
  · split
    · exact h
    · exact keeps_etagBody env c val w0 w r _ _ hE hC h
  · exact h
  · exact h

theorem keeps_writeError (env : Env) (c : String) (val : Option (List String))
    (w0 w : ResponseWriter) (resp : HttpResponse)
    (hN : c ≠ env.canonicalKey ContentTypeOptions) (h : KeepsEntry c val w0 w) :
    KeepsEntry c val w0 (writeError env w resp).2 := by
  have h2 := keeps_WriteHeader c val w0 _ resp.statusCode
    (keeps_SetHeader env c val w0 w ContentTypeOptions ContentTypeOptionsNoSniff hN h)
  unfold writeError
  split
  · exact keeps_encodeTo c val w0 _ env.jsonEncode resp.payload h2
  · split
    · exact keeps_Write c val w0 _ _ h2
    · exact h2

theorem keeps_writePayload (env : Env) (c : String) (val : Option (List String))
    (w0 w : ResponseWriter) (r : Option Request) (resp : HttpResponse)
    (hE : c ≠ env.canonicalKey headersETag) (hC : c ≠ env.canonicalKey headersCacheControl)
    (hnr : resp.payloadType ≠ redirectType) (h : KeepsEntry c val w0 w) :
    KeepsEntry c val w0 (writePayload env w r resp).2 := by
  have h2 := keeps_WriteHeader c val w0 w resp.statusCode h
  unfold writePayload
  rw [if_neg hnr]
  split
  · exact keeps_writeEtagPayload env c val w0 w r resp hE hC h
  · split
    · split
      · exact keeps_Write c val w0 _ _ h2
      · exact h2
    · exact keeps_encodeTo c val w0 _ env.jsoniterEncode resp.payload h2
    · exact h2
    · exact h2

/-- Off the redirect path, what `Write` does after the header phase keeps every
entry whose key is none of nosniff, ETag and Cache-Control. -/
theorem keeps_body (env : Env) (c : String) (val : Option (List String))
    (w0 w : ResponseWriter) (r : Option Request) (resp : HttpResponse)
    (hN : c ≠ env.canonicalKey ContentTypeOptions)
    (hE : c ≠ env.canonicalKey headersETag) (hC : c ≠ env.canonicalKey headersCacheControl)
    (hcase : resp.isSuccessful = false ∨ resp.payloadType ≠ redirectType)
    (h : KeepsEntry c val w0 w) :
    KeepsEntry c val w0
      (if resp.isSuccessful = false then writeError env w resp
       else writePayload env w r resp).2 := by
  by_cases hf : resp.isSuccessful = false
  · rw [if_pos hf]
    exact keeps_writeError env c val w0 w resp hN h
  · rw [if_neg hf]
    have hnr : resp.payloadType ≠ redirectType := by
      rcases hcase with hc | hc
      · exact absurd hc hf
      · exact hc
    exact keeps_writePayload env c val w0 w r resp hE hC hnr h

/-- On the redirect path the Content-Type entry of the header map stays, given
that `http.Redirect` leaves it alone. -/
theorem redirect_content_type (env : Env) (ct : String) (w : ResponseWriter)
    (r : Option Request) (resp : HttpResponse)
    (hR : ∀ (w : ResponseWriter) (r : Option Request) (url : String) (code : Int)
        (v : List String),
      w.header.lookup (env.canonicalKey ContentTypeHeader) = some v →
      (env.httpRedirect w r url code).2.header.lookup (env.canonicalKey ContentTypeHeader)
        = some v)
    (h : w.header.lookup (env.canonicalKey ContentTypeHeader) = some [ct]) :
    (redirect env resp w r).2.header.lookup (env.canonicalKey ContentTypeHeader)
      = some [ct] := by
  unfold redirect
  split
  · rename_i url _
    have hh := hR w r url resp.statusCode [ct] h
    split
    · rename_i p w2 heq
      rw [heq] at hh
      exact hh
    · rename_i w2 heq
      rw [heq] at hh
      exact hh
  · exact h

/-- The header map after the loop of `applyCustomHeaders`: under every canonical
key, the value of the last caller entry with that key, or what the map held
before. -/
theorem foldl_SetHeader_lookup (env : Env) (c : String) (l : List (String × String))
    (w : ResponseWriter) :
    (l.foldl (fun w e => w.SetHeader env e.1 e.2) w).header.lookup c =
      match callerValue env c l with
      | some v => some [v]
      | none => w.header.lookup c := by
  induction l generalizing w with
  | nil => rfl
  | cons e rest ih =>
    simp only [List.foldl, callerValue]
    rw [ih (w.SetHeader env e.1 e.2)]
    cases callerValue env c rest with
    | some v => rfl
    | none =>
      by_cases hk : env.canonicalKey e.1 = c
      · subst hk
        simp only [if_true]
        exact SetHeader_lookup env w e.1 e.2
      · simp only [hk, if_false]
        exact SetHeader_lookup_ne env w e.1 e.2 c (Ne.symm hk)

theorem applyCustomHeaders_lookup (env : Env) (c : String) (w : ResponseWriter)
    (headers : Option (List (String × String))) :
    (applyCustomHeaders env w headers).header.lookup c = appliedEntry env c headers w.header :=
  foldl_SetHeader_lookup env c (headers.getD []) w

/-- The header phase of `Write` and the body phase after it, for any response. -/
theorem Write_entries (env : Env) (w : ResponseWriter) (r : Option Request)
    (resp : HttpResponse) (hlib : LibraryKeepsContentType env) :
    (Write env w r resp).2.header.lookup (env.canonicalKey ContentTypeHeader)
      = some [resp.contentType] ∧
    ((resp.isSuccessful = false ∨ resp.payloadType ≠ redirectType) →
      KeepsContentType env resp.contentType w (Write env w r resp).2) ∧
    ((resp.isSuccessful = false ∨ resp.payloadType ≠ redirectType) →
      ∀ c, IsCallerKey env c →
        KeepsEntry c (appliedEntry env c resp.headers w.header) w (Write env w r resp).2) ∧
    (∃ w1,
      Write env w r resp =
        (if resp.isSuccessful = false then writeError env w1 resp
         else writePayload env w1 r resp) ∧
      w1.statusLines = w.statusLines ∧ w1.writes = w.writes ∧
      w1.header.lookup (env.canonicalKey ContentTypeHeader) = some [resp.contentType] ∧
      ∀ c, c ≠ env.canonicalKey ContentTypeHeader →
        w1.header.lookup c = appliedEntry env c resp.headers w.header) := by
  obtain ⟨hN, hE, hC, hR⟩ := hlib
  obtain ⟨hs, hw, _⟩ := applyCustomHeaders_fields env w resp.headers
  have hct := SetHeader_lookup env (applyCustomHeaders env w resp.headers) ContentTypeHeader
    resp.contentType
  have hother : ∀ c, c ≠ env.canonicalKey ContentTypeHeader →
      ((applyCustomHeaders env w resp.headers).SetHeader env ContentTypeHeader
        resp.contentType).header.lookup c = appliedEntry env c resp.headers w.header := by
    intro c hc
    rw [SetHeader_lookup_ne env _ ContentTypeHeader resp.contentType c hc]
    exact applyCustomHeaders_lookup env c w resp.headers
  have hW : Write env w r resp =
      (if resp.isSuccessful = false then
        writeError env ((applyCustomHeaders env w resp.headers).SetHeader env
          ContentTypeHeader resp.contentType) resp
       else
        writePayload env ((applyCustomHeaders env w resp.headers).SetHeader env
          ContentTypeHeader resp.contentType) r resp) := rfl
  have hB : (resp.isSuccessful = false ∨ resp.payloadType ≠ redirectType) →
      KeepsContentType env resp.contentType w (Write env w r resp).2 := by
    intro hcase
    rw [hW]
    exact keeps_body env _ _ w _ r resp (Ne.symm hN) (Ne.symm hE) (Ne.symm hC) hcase
      (keeps_start _ _ w _ hs hct)
  refine ⟨?_, hB, ?_, ⟨_, hW, hs, hw, hct, hother⟩⟩
  · by_cases hcase : resp.isSuccessful = false ∨ resp.payloadType ≠ redirectType
    · exact (hB hcase).1
    · have hsucc : ¬ resp.isSuccessful = false := fun h => hcase (Or.inl h)
      have hp : resp.payloadType = redirectType := by
        by_contra h
        exact hcase (Or.inr h)
      rw [hW, if_neg hsucc]
      unfold writePayload
      rw [if_pos hp]
      exact redirect_content_type env resp.contentType _ r resp hR hct
  · intro hcase c hc
    obtain ⟨h1, h2, h3, h4⟩ := hc
    rw [hW]
    exact keeps_body env c _ w _ r resp h2 h3 h4 hcase
      (keeps_start c _ w _ hs (hother c h1))

/-- C11: framework headers take precedence over caller headers, and of several
`WithHeaders` calls only the map of the last one is applied. For every response
and caller header maps `first` and `last` attached in that order:
the Content-Type entry of the header map after `Write` is the recorded content
type of the response, whatever the maps hold (off the redirect path also in the
header map of every status line written); the response holds the map `last`
alone; and off the redirect path every other caller key is written with the
value `last` gives it, a key that `last` does not have keeps what the writer
held before, whatever `first` gave it. On every path this is the header map
handed to the body phase. The libraries are assumed to treat the framework keys
as headers other than Content-Type and `http.Redirect` to leave a set
Content-Type alone. -/
theorem Write_content_type_precedence (env : Env) (w : ResponseWriter) (r : Option Request)
    (resp : HttpResponse) (first last : Option (List (String × String)))
    (hlib : LibraryKeepsContentType env) :
    (Write env w r ((resp.WithHeaders first).WithHeaders last)).2.header.lookup
        (env.canonicalKey ContentTypeHeader) = some [resp.contentType] ∧
    ((resp.isSuccessful = false ∨ resp.payloadType ≠ redirectType) →
      KeepsContentType env resp.contentType w
        (Write env w r ((resp.WithHeaders first).WithHeaders last)).2) ∧
    ((resp.WithHeaders first).WithHeaders last).headers = last ∧
    (resp.WithHeaders first).WithHeaders last = resp.WithHeaders last ∧
    ((resp.isSuccessful = false ∨ resp.payloadType ≠ redirectType) →
      ∀ c, IsCallerKey env c →
        KeepsEntry c (appliedEntry env c last w.header) w
          (Write env w r ((resp.WithHeaders first).WithHeaders last)).2) ∧
    (∃ w1,
      Write env w r ((resp.WithHeaders first).WithHeaders last) =
        (if resp.isSuccessful = false then
          writeError env w1 ((resp.WithHeaders first).WithHeaders last)
         else writePayload env w1 r ((resp.WithHeaders first).WithHeaders last)) ∧
      w1.statusLines = w.statusLines ∧ w1.writes = w.writes ∧
      w1.header.lookup (env.canonicalKey ContentTypeHeader) = some [resp.contentType] ∧
      ∀ c, c ≠ env.canonicalKey ContentTypeHeader →
        w1.header.lookup c = appliedEntry env c last w.header) := by
  obtain ⟨h1, h2, h3, h4⟩ :=
    Write_entries env w r ((resp.WithHeaders first).WithHeaders last) hlib
  exact ⟨h1, h2, rfl, rfl, h3, h4⟩

/-- The stand-in libraries satisfy the assumption of C11. -/
theorem sampleEnv_keeps_content_type : LibraryKeepsContentType sampleEnv := by
  refine ⟨by decide, by decide, by decide, ?_⟩
  intro w r url code v h
  have hne : ("Content-Type" : String) ≠ "Location" := by decide
  have hb : (("Content-Type" : String) == "Location") = false := by decide
  show List.lookup "Content-Type"
    (("Location", [url]) :: w.header.filter (fun e => e.1 ≠ "Location")) = some v
  simp only [List.lookup, hb]
  rw [header_lookup_filter_ne w.header "Location" "Content-Type" hne]
  exact h

/-- A JSON response with `WithHeaders` called twice, the second map carrying
`X-B` and its own `Content-Type: text/html`. -/
theorem Write_content_type_precedence_witness :
    (Write sampleEnv emptyWriter none
        ((jsonWithCallerHeaders.WithHeaders (some [("X-A", "1")])).WithHeaders
          (some [("X-B", "2"), ("Content-Type", "text/html")]))).2.header.lookup
        (sampleEnv.canonicalKey ContentTypeHeader) = some [jsonWithCallerHeaders.contentType] ∧
    ((jsonWithCallerHeaders.isSuccessful = false ∨
        jsonWithCallerHeaders.payloadType ≠ redirectType) →
      KeepsContentType sampleEnv jsonWithCallerHeaders.contentType emptyWriter
        (Write sampleEnv emptyWriter none
          ((jsonWithCallerHeaders.WithHeaders (some [("X-A", "1")])).WithHeaders
            (some [("X-B", "2"), ("Content-Type", "text/html")]))).2) ∧
    ((jsonWithCallerHeaders.WithHeaders (some [("X-A", "1")])).WithHeaders
        (some [("X-B", "2"), ("Content-Type", "text/html")])).headers
      = some [("X-B", "2"), ("Content-Type", "text/html")] ∧
    (jsonWithCallerHeaders.WithHeaders (some [("X-A", "1")])).WithHeaders
        (some [("X-B", "2"), ("Content-Type", "text/html")])
      = jsonWithCallerHeaders.WithHeaders (some [("X-B", "2"), ("Content-Type", "text/html")]) ∧
    ((jsonWithCallerHeaders.isSuccessful = false ∨
        jsonWithCallerHeaders.payloadType ≠ redirectType) →
      ∀ c, IsCallerKey sampleEnv c →
        KeepsEntry c
          (appliedEntry sampleEnv c (some [("X-B", "2"), ("Content-Type", "text/html")])
            emptyWriter.header)
          emptyWriter
          (Write sampleEnv emptyWriter none
            ((jsonWithCallerHeaders.WithHeaders (some [("X-A", "1")])).WithHeaders
              (some [("X-B", "2"), ("Content-Type", "text/html")]))).2) ∧
    (∃ w1,
      Write sampleEnv emptyWriter none
          ((jsonWithCallerHeaders.WithHeaders (some [("X-A", "1")])).WithHeaders
            (some [("X-B", "2"), ("Content-Type", "text/html")])) =
        (if jsonWithCallerHeaders.isSuccessful = false then
          writeError sampleEnv w1
            ((jsonWithCallerHeaders.WithHeaders (some [("X-A", "1")])).WithHeaders
              (some [("X-B", "2"), ("Content-Type", "text/html")]))
         else writePayload sampleEnv w1 none
            ((jsonWithCallerHeaders.WithHeaders (some [("X-A", "1")])).WithHeaders
              (some [("X-B", "2"), ("Content-Type", "text/html")]))) ∧
      w1.statusLines = emptyWriter.statusLines ∧ w1.writes = emptyWriter.writes ∧
      w1.header.lookup (sampleEnv.canonicalKey ContentTypeHeader)
        = some [jsonWithCallerHeaders.contentType] ∧
      ∀ c, c ≠ sampleEnv.canonicalKey ContentTypeHeader →
        w1.header.lookup c
          = appliedEntry sampleEnv c (some [("X-B", "2"), ("Content-Type", "text/html")])
              emptyWriter.header) :=
  Write_content_type_precedence sampleEnv emptyWriter none jsonWithCallerHeaders
    (some [("X-A", "1")]) (some [("X-B", "2"), ("Content-Type", "text/html")])
    sampleEnv_keeps_content_type

/-- The same run evaluated: the header map and the one status line written hold
`X-B` of the last map and the JSON content type, and neither `X-A` of the first
map nor the `X-Request-Id` the response carried before. -/
theorem Write_last_headers_example :
    (Write sampleEnv emptyWriter none
        ((jsonWithCallerHeaders.WithHeaders (some [("X-A", "1")])).WithHeaders
          (some [("X-B", "2"), ("Content-Type", "text/html")]))).2.header
      = [("Content-Type", ["application/json;charset=utf-8"]), ("X-B", ["2"])] ∧
    (Write sampleEnv emptyWriter none
        ((jsonWithCallerHeaders.WithHeaders (some [("X-A", "1")])).WithHeaders
          (some [("X-B", "2"), ("Content-Type", "text/html")]))).2.statusLines
      = [(200, [("Content-Type", ["application/json;charset=utf-8"]), ("X-B", ["2"])])] := by
  decide

end Lynkly
